import Mathlib

set_option linter.all false
set_option maxRecDepth 2048

/-
Verification of the POSIX process-pipeline engine in
GCC_XML/KWSys/ProcessUNIX.c.

The engine is shallowly embedded: the kwsysProcess structure becomes a
Lean structure, C doubles become rationals (the operations the engine
performs on them - comparison, subtraction, clamping - are exact), file
descriptors are abstracted to their openness/readiness, and the
interaction with the operating system (gettimeofday, select, read,
waitpid, malloc) is supplied by an explicit oracle consumed through
counters.  Loops are given fuel; every theorem about a loop either
proves the exit within the available fuel or hypothesises the observed
exit kind.
-/

namespace KWSysProc

/-- Embedding of struct timeval (kwsysProcessTime, ProcessUNIX.c line 72).
    tv_sec and tv_usec are C longs, modelled as Int. -/
structure kwsysProcessTime where
  tv_sec : Int
  tv_usec : Int
deriving DecidableEq, Repr

/-- kwsysProcessTimeAdd (ProcessUNIX.c lines 1164-1175).  Note the strict
    comparison: a microsecond sum of exactly 1000000 is left
    unnormalised. -/
def kwsysProcessTimeAdd (in1 in2 : kwsysProcessTime) : kwsysProcessTime :=
  let s := in1.tv_sec + in2.tv_sec
  let u := in1.tv_usec + in2.tv_usec
  if u > 1000000 then { tv_sec := s + 1, tv_usec := u - 1000000 }
  else { tv_sec := s, tv_usec := u }

/-- kwsysProcessTimeSubtract (lines 1178-1189). -/
def kwsysProcessTimeSubtract (in1 in2 : kwsysProcessTime) : kwsysProcessTime :=
  let s := in1.tv_sec - in2.tv_sec
  let u := in1.tv_usec - in2.tv_usec
  if u < 0 then { tv_sec := s - 1, tv_usec := u + 1000000 }
  else { tv_sec := s, tv_usec := u }

/-- kwsysProcessTimeLess (lines 1157-1161). -/
def kwsysProcessTimeLess (in1 in2 : kwsysProcessTime) : Bool :=
  in1.tv_sec < in2.tv_sec || (in1.tv_sec == in2.tv_sec && in1.tv_usec < in2.tv_usec)

/-- kwsysProcessTimeToDouble (lines 1142-1145), with the double modelled
    as a rational. -/
def kwsysProcessTimeToDouble (t : kwsysProcessTime) : Rat :=
  (t.tv_sec : Rat) + (t.tv_usec : Rat) * (1 / 1000000)

/-- Truncation toward zero: the semantics of the C cast (long)d. -/
def ratTrunc (d : Rat) : Int := if d < 0 then Int.ceil d else Int.floor d

/-- kwsysProcessTimeFromDouble (lines 1148-1154). -/
def kwsysProcessTimeFromDouble (d : Rat) : kwsysProcessTime :=
  let s := ratTrunc d
  { tv_sec := s, tv_usec := ratTrunc ((d - (s : Rat)) * 1000000) }

/-- Modelled from the spec: the state enumeration declared in the
    Process.h header (not among the provided sources); section 6 of the
    spec lists the values Starting, Error, Executing, Exited, Expired,
    Killed, Exception.  ProcessUNIX.c manipulates them symbolically. -/
inductive ProcState where
  | Starting
  | Error
  | Executing
  | Exited
  | Expired
  | Killed
  | Exception
deriving DecidableEq, Repr

/-- Modelled from the spec: the exception categories from the Process.h
    header (spec section 6): None, Fault, Illegal, Interrupt, Numerical,
    Other. -/
inductive ExcCode where
  | None
  | Fault
  | Illegal
  | Interrupt
  | Numerical
  | Other
deriving DecidableEq, Repr

/-- KWSYSPE_PIPE_BUFFER_SIZE (line 70). -/
def KWSYSPE_PIPE_BUFFER_SIZE : Nat := 1024

/-- Modelled from the spec: the Pipe_Timeout sentinel returned only by
    WaitForData; a distinct non-bitmask value (spec section 6 gives 255). -/
def kwsysProcess_Pipe_Timeout : Int := 255

/-- The three-slot pipe array (stdout = 0, stderr = 1, termination = 2).
    The source stores integer file descriptors; the engine logic depends
    only on whether a slot is open (fd >= 0) and on fd-set membership,
    so a slot is modelled as a Bool. -/
structure PipeArray where
  p0 : Bool
  p1 : Bool
  p2 : Bool
deriving DecidableEq, Repr

def PipeArray.get (a : PipeArray) : Nat → Bool
  | 0 => a.p0
  | 1 => a.p1
  | 2 => a.p2
  | _ => false

def PipeArray.set (a : PipeArray) : Nat → Bool → PipeArray
  | 0, b => { a with p0 := b }
  | 1, b => { a with p1 := b }
  | 2, b => { a with p2 := b }
  | _, _ => a

/-- Intersection of two descriptor sets (select writes back the ready
    subset of the watched set). -/
def PipeArray.inter (a b : PipeArray) : PipeArray :=
  { p0 := a.p0 && b.p0, p1 := a.p1 && b.p1, p2 := a.p2 && b.p2 }

def PipeArray.closedAll : PipeArray := { p0 := false, p1 := false, p2 := false }

/-- Embedding of struct kwsysProcess_s (lines 104-167).  Owned buffers
    and arrays are modelled by their logical contents; NumberOfCommands
    is Commands.length. -/
structure kwsysProcess where
  Commands : List (List String)
  PipeReadEnds : PipeArray
  ForkPIDs : List Int
  SelectError : Bool
  Timeout : Rat
  WorkingDirectory : Option String
  StartTime : kwsysProcessTime
  TimeoutTime : kwsysProcessTime
  TimeoutExpired : Bool
  PipesLeft : Int
  PipeSet : PipeArray
  State : ProcState
  ExitException : ExcCode
  ExitCode : Int
  ExitValue : Int
  Killed : Bool
  ErrorMessage : String
  CommandExitCodes : List Int
deriving DecidableEq, Repr

/-- kwsysProcess_New (lines 170-181), successful allocation: the
    structure is zeroed and State set to Starting. -/
def kwsysProcess_New : kwsysProcess :=
  { Commands := []
  , PipeReadEnds := PipeArray.closedAll
  , ForkPIDs := []
  , SelectError := false
  , Timeout := 0
  , WorkingDirectory := none
  , StartTime := { tv_sec := 0, tv_usec := 0 }
  , TimeoutTime := { tv_sec := 0, tv_usec := 0 }
  , TimeoutExpired := false
  , PipesLeft := 0
  , PipeSet := PipeArray.closedAll
  , State := ProcState.Starting
  , ExitException := ExcCode.None
  , ExitCode := 0
  , ExitValue := 0
  , Killed := false
  , ErrorMessage := ""
  , CommandExitCodes := [] }

/-- kwsysProcess_AddCommand (lines 229-298).  malloc/strdup outcomes are
    drawn from the allocation oracle: index 0 is the enlarged outer
    command array, index 1 the new argument array, index 2+i the strdup
    of argument i (the source strdups arguments in order and stops at
    the first failure).  Every failure branch frees what it allocated
    and returns 0 with the structure untouched; on success the new
    command is appended and 1 returned. -/
def kwsysProcess_AddCommand (alloc : Nat → Bool) (cp : kwsysProcess)
    (command : Option (List String)) : Int × kwsysProcess :=
  match command with
  | none => (0, cp)
  | some cmd =>
    if alloc 0 = false then (0, cp)
    else if alloc 1 = false then (0, cp)
    else if (List.range cmd.length).all (fun i => alloc (2 + i)) then
      (1, { cp with Commands := cp.Commands ++ [cmd] })
    else (0, cp)

/-- kwsysProcess_SetCommand (lines 203-226): frees every stored command,
    then optionally appends the new one via AddCommand. -/
def kwsysProcess_SetCommand (alloc : Nat → Bool) (cp : kwsysProcess)
    (command : Option (List String)) : Int × kwsysProcess :=
  let cp2 := { cp with Commands := [] }
  match command with
  | some c => kwsysProcess_AddCommand alloc cp2 (some c)
  | none => (1, cp2)

/-- kwsysProcess_SetTimeout (lines 301-308): stores the value, then
    clamps a negative stored value to zero. -/
def kwsysProcess_SetTimeout (cp : kwsysProcess) (timeout : Rat) : kwsysProcess :=
  let cp2 := { cp with Timeout := timeout }
  if cp2.Timeout < 0 then { cp2 with Timeout := 0 } else cp2

/-- kwsysProcess_SetWorkingDirectory (lines 311-331).  The two early
    returns (pointer equality, strcmp equality) leave the field intact
    exactly when the stored value already equals the argument, so both
    collapse to the first branch here. -/
def kwsysProcess_SetWorkingDirectory (cp : kwsysProcess) (dir : Option String) :
    kwsysProcess :=
  if cp.WorkingDirectory = dir then cp
  else { cp with WorkingDirectory := dir }

/-- kwsysProcess_Kill (lines 796-815).  The SIGKILLs sent are returned
    as the list of targeted pids (an external effect, not state). -/
def kwsysProcess_Kill (cp : kwsysProcess) : kwsysProcess × List Int :=
  if cp.State = ProcState.Executing then
    ({ cp with Killed := true }, cp.ForkPIDs.filter (fun p => p ≠ 0))
  else (cp, [])

/-- POSIX wait-status decoding as on Linux/glibc (bits/waitstatus.h);
    platform macros used by WaitForExit, not repository code. -/
def WIFEXITED (s : Int) : Bool := s % 128 == 0

/-- WEXITSTATUS: bits 8-15 of the wait status. -/
def WEXITSTATUS (s : Int) : Int := (s / 256) % 256

/-- WTERMSIG: low seven bits of the wait status. -/
def WTERMSIG (s : Int) : Int := s % 128

/-- WIFSIGNALED: the terminating-signal field is neither 0 (normal
    exit) nor 0x7f (stopped). -/
def WIFSIGNALED (s : Int) : Bool := (0 < s % 128 && s % 128 < 127)

/-- Linux signal numbers (platform constants referenced by the switch in
    WaitForExit). -/
def SIGINT : Int := 2

def SIGILL : Int := 4

def SIGBUS : Int := 7

def SIGFPE : Int := 8

def SIGSEGV : Int := 11

/-- The signal-to-exception-category switch of WaitForExit
    (lines 762-780). -/
def kwsysMapSignal (ts : Int) : ExcCode :=
  if ts = SIGSEGV then ExcCode.Fault
  else if ts = SIGBUS then ExcCode.Fault
  else if ts = SIGFPE then ExcCode.Numerical
  else if ts = SIGILL then ExcCode.Illegal
  else if ts = SIGINT then ExcCode.Interrupt
  else ExcCode.Other

/-- Result of one (EINTR-retried) select call: the set of ready
    descriptors, a timeout, or a non-EINTR failure carrying the
    strerror(errno) text. -/
inductive SelectResult where
  | ready (fds : PipeArray)
  | timedOut
  | err (msg : String)
deriving DecidableEq, Repr

/-- Environment oracle: gettimeofday results (by call count), select
    results (by call count), read results as byte counts (by call
    count), and waitpid results per child index (ok wait-status, or
    error with strerror text). -/
structure Oracle where
  time : Nat → kwsysProcessTime
  sel : Nat → SelectResult
  rd : Nat → Int
  wp : Nat → Except String Int

/-- Counters locating the next unconsumed oracle entries (gettimeofday,
    select, read). -/
structure Ctr where
  t : Nat
  s : Nat
  r : Nat
deriving DecidableEq, Repr

/-- The lazily computed process-timeout deadline (GetTimeoutTime,
    lines 1079-1083): derived from StartTime only when Timeout is
    nonzero and the sentinel is still in place; otherwise the stored
    value (possibly the (-1, -1) sentinel) is kept. -/
def lazyTT (cp : kwsysProcess) : kwsysProcessTime :=
  if cp.Timeout ≠ 0 ∧ cp.TimeoutTime.tv_sec < 0 then
    kwsysProcessTimeAdd cp.StartTime (kwsysProcessTimeFromDouble cp.Timeout)
  else cp.TimeoutTime

/-- kwsysProcessGetTimeoutTime (lines 1074-1102).  Returns the updated
    process, counters, the effective deadline, and whether the user
    timeout is the earlier one (the source's return value). -/
def kwsysProcessGetTimeoutTime (O : Oracle) (ctr : Ctr) (cp : kwsysProcess)
    (userTimeout : Option Rat) : kwsysProcess × Ctr × kwsysProcessTime × Bool :=
  let cp2 := { cp with TimeoutTime := lazyTT cp }
  match userTimeout with
  | none => (cp2, ctr, cp2.TimeoutTime, false)
  | some u =>
    let current := O.time ctr.t
    let ctr2 := { ctr with t := ctr.t + 1 }
    let uT := kwsysProcessTimeAdd current (kwsysProcessTimeFromDouble u)
    if kwsysProcessTimeLess uT cp2.TimeoutTime then (cp2, ctr2, uT, true)
    else (cp2, ctr2, cp2.TimeoutTime, false)

/-- kwsysProcessGetTimeoutLeft (lines 1107-1131): whether the deadline
    has already passed; consumes one gettimeofday when a deadline is
    set.  The computed remaining length only parameterises the select
    call, whose outcome the oracle supplies, so it is not returned. -/
def kwsysProcessGetTimeoutLeft (O : Oracle) (ctr : Ctr) (tt : kwsysProcessTime) :
    Ctr × Bool :=
  if tt.tv_sec < 0 then (ctr, false)
  else
    let current := O.time ctr.t
    let len := kwsysProcessTimeSubtract tt current
    ({ ctr with t := ctr.t + 1 }, len.tv_sec < 0)

/-- One slot of the ready-pipe scan at the top of WaitForData's loop
    (lines 519-556): if slot i is open and marked ready, clear its mark
    and read; n > 0 on the termination pipe is ignored, n > 0 on a
    caller-requested pipe reports pipeId 1 shl i, n <= 0 closes the slot
    and decrements PipesLeft. -/
def wfdReadPipe (O : Oracle) (pipes : Nat) (i : Nat) (cp : kwsysProcess)
    (ctr : Ctr) : kwsysProcess × Ctr × Int :=
  if cp.PipeReadEnds.get i && cp.PipeSet.get i then
    let cp1 := { cp with PipeSet := cp.PipeSet.set i false }
    let n := O.rd ctr.r
    let ctr1 := { ctr with r := ctr.r + 1 }
    if 0 < n then
      if i = 2 then (cp1, ctr1, 0)
      else if pipes.testBit i then (cp1, ctr1, (2 ^ i : Int))
      else (cp1, ctr1, 0)
    else
      ({ cp1 with PipeReadEnds := cp1.PipeReadEnds.set i false,
                  PipesLeft := cp1.PipesLeft - 1 }, ctr1, 0)
  else (cp, ctr, 0)

/-- The for-loop over the three slots, with the source's break as soon
    as a pipeId is produced. -/
def wfdReadAll (O : Oracle) (pipes : Nat) (cp : kwsysProcess) (ctr : Ctr) :
    kwsysProcess × Ctr × Int :=
  match wfdReadPipe O pipes 0 cp ctr with
  | (cp0, ctr0, q0) =>
    if q0 ≠ 0 then (cp0, ctr0, q0)
    else
      match wfdReadPipe O pipes 1 cp0 ctr0 with
      | (cp1, ctr1, q1) =>
        if q1 ≠ 0 then (cp1, ctr1, q1)
        else wfdReadPipe O pipes 2 cp1 ctr1

/-- How WaitForData's select loop was exited. -/
inductive WFDExit where
  | gotData (pipeId : Int)
  | noPipes
  | allClosed
  | expiredLoop
  | selErr
  | fuelOut
deriving DecidableEq, Repr

/-- Result of the select loop: final process, counters, SIGKILLs sent,
    and the exit kind. -/
structure LoopResult where
  cp : kwsysProcess
  ctr : Ctr
  sigs : List Int
  exit : WFDExit
deriving Repr

/-- One iteration of WaitForData's while (PipesLeft > 0) select loop
    (lines 515-629): either an exit of the loop (left) or, after select
    reported ready descriptors, the process and counters for the next
    iteration (right).  A non-EINTR select failure records the truncated
    strerror text, kills the children, clears Killed, sets SelectError
    and zeroes PipesLeft (lines 617-628); the loop then stops because
    its condition fails, modelled as an immediate exit. -/
def wfdStep (O : Oracle) (pipes : Nat) (tt : kwsysProcessTime)
    (cp : kwsysProcess) (ctr : Ctr) (sigs : List Int) :
    LoopResult ⊕ (kwsysProcess × Ctr) :=
  if cp.PipesLeft ≤ 0 then
    Sum.inl { cp := cp, ctr := ctr, sigs := sigs, exit := WFDExit.noPipes }
  else
    match wfdReadAll O pipes cp ctr with
    | (cp1, ctr1, pipeId) =>
      if pipeId ≠ 0 then
        Sum.inl { cp := cp1, ctr := ctr1, sigs := sigs, exit := WFDExit.gotData pipeId }
      else
        let cp2 := { cp1 with PipeSet := cp1.PipeReadEnds }
        if cp1.PipeReadEnds = PipeArray.closedAll then
          Sum.inl { cp := cp2, ctr := ctr1, sigs := sigs, exit := WFDExit.allClosed }
        else
          match kwsysProcessGetTimeoutLeft O ctr1 tt with
          | (ctr2, expired) =>
            if expired then
              Sum.inl { cp := cp2, ctr := ctr2, sigs := sigs, exit := WFDExit.expiredLoop }
            else
              let ctr3 := { ctr2 with s := ctr2.s + 1 }
              match O.sel ctr2.s with
              | SelectResult.timedOut =>
                Sum.inl { cp := cp2, ctr := ctr3, sigs := sigs, exit := WFDExit.expiredLoop }
              | SelectResult.ready fds =>
                Sum.inr ({ cp2 with PipeSet := PipeArray.inter fds cp2.PipeSet }, ctr3)
              | SelectResult.err msg =>
                let cp3 := { cp2 with ErrorMessage := msg.take KWSYSPE_PIPE_BUFFER_SIZE }
                let kk := kwsysProcess_Kill cp3
                Sum.inl
                  { cp := { kk.1 with Killed := false, SelectError := true, PipesLeft := 0 },
                    ctr := ctr3, sigs := sigs ++ kk.2, exit := WFDExit.selErr }

/-- The select loop itself: iterate wfdStep with fuel bounding the
    number of iterations. -/
def wfdLoop (O : Oracle) (pipes : Nat) (tt : kwsysProcessTime) :
    Nat → kwsysProcess → Ctr → List Int → LoopResult
  | 0, cp, ctr, sigs => { cp := cp, ctr := ctr, sigs := sigs, exit := WFDExit.fuelOut }
  | fuel + 1, cp, ctr, sigs =>
    match wfdStep O pipes tt cp ctr sigs with
    | Sum.inl r => r
    | Sum.inr (cp2, ctr2) => wfdLoop O pipes tt fuel cp2 ctr2 sigs

/-- Full result of kwsysProcess_WaitForData: return value, process,
    written-back user timeout, counters, SIGKILLs sent, and (as
    instrumentation) the loop exit kind and which timeout was the
    earlier one. -/
structure WFDResult where
  ret : Int
  cp : kwsysProcess
  userTimeout : Option Rat
  ctr : Ctr
  sigs : List Int
  exit : WFDExit
  user : Bool
deriving Repr

/-- The pre-loop stage of WaitForData (lines 503-511): record the user
    start time if a user timeout was supplied, then compute the
    effective deadline.  Returns the user start time, the updated
    process, counters, deadline, and the user-timeout-is-earlier flag. -/
def wfdPre (O : Oracle) (ctr : Ctr) (cp : kwsysProcess) (userTimeout : Option Rat) :
    kwsysProcessTime × kwsysProcess × Ctr × kwsysProcessTime × Bool :=
  match userTimeout with
  | some _ =>
    let ust := O.time ctr.t
    let ctrA := { ctr with t := ctr.t + 1 }
    match kwsysProcessGetTimeoutTime O ctrA cp userTimeout with
    | (cpA, ctrB, tt, user) => (ust, cpA, ctrB, tt, user)
  | none =>
    match kwsysProcessGetTimeoutTime O ctr cp none with
    | (cpA, ctrB, tt, user) => ({ tv_sec := 0, tv_usec := 0 }, cpA, ctrB, tt, user)

/-- The disposition of WaitForData on loop exit (lines 645-673): data,
    user timeout (Pipe_Timeout), process timeout (kill children, clear
    Killed, set TimeoutExpired, zero PipesLeft, return 0), or no pipes
    left (return 0). -/
def wfdDispatch (lr : LoopResult) (ut2 : Option Rat) (ctrC : Ctr) (user : Bool) :
    WFDResult :=
  match lr.exit with
  | WFDExit.gotData pid =>
    { ret := pid, cp := lr.cp, userTimeout := ut2, ctr := ctrC,
      sigs := lr.sigs, exit := lr.exit, user := user }
  | WFDExit.expiredLoop =>
    if user then
      { ret := kwsysProcess_Pipe_Timeout, cp := lr.cp, userTimeout := ut2,
        ctr := ctrC, sigs := lr.sigs, exit := lr.exit, user := user }
    else
      let kk := kwsysProcess_Kill lr.cp
      { ret := 0,
        cp := { kk.1 with Killed := false, TimeoutExpired := true, PipesLeft := 0 },
        userTimeout := ut2, ctr := ctrC, sigs := lr.sigs ++ kk.2,
        exit := lr.exit, user := user }
  | _ =>
    { ret := 0, cp := lr.cp, userTimeout := ut2, ctr := ctrC,
      sigs := lr.sigs, exit := lr.exit, user := user }

/-- The user-timeout write-back of WaitForData (lines 631-643, with the
    clamp at zero) followed by the disposition. -/
def wfdPost (O : Oracle) (u : Option Rat) (ust : kwsysProcessTime) (user : Bool)
    (lr : LoopResult) : WFDResult :=
  match u with
  | some uu =>
    let endT := O.time lr.ctr.t
    let d := kwsysProcessTimeToDouble (kwsysProcessTimeSubtract endT ust)
    wfdDispatch lr (some (if uu - d < 0 then 0 else uu - d))
      { lr.ctr with t := lr.ctr.t + 1 } user
  | none => wfdDispatch lr none lr.ctr user

/-- kwsysProcess_WaitForData (lines 489-674): the pre-loop stage, the
    select loop, the user-timeout write-back and the disposition. -/
def kwsysProcess_WaitForData (O : Oracle) (fuel : Nat) (cp : kwsysProcess)
    (pipes : Nat) (userTimeout : Option Rat) (ctr : Ctr) : WFDResult :=
  match wfdPre O ctr cp userTimeout with
  | (ust, cpA, ctrB, tt, user) =>
    wfdPost O userTimeout ust user (wfdLoop O pipes tt fuel cpA ctrB [])

/-- kwsysProcessCleanup (lines 869-914) with its error flag.  The
    SIGCHLD restoration is an external effect; freeing ForkPIDs and
    closing the pipe read ends are the state changes.  WaitForExit only
    calls this with error = false. -/
def kwsysProcessCleanup (cp : kwsysProcess) (error : Bool) (errMsg : String) :
    kwsysProcess × List Int :=
  if error then
    let cpA := if cp.ErrorMessage = "" then
        { cp with ErrorMessage := errMsg.take KWSYSPE_PIPE_BUFFER_SIZE }
      else cp
    let cpB := { cpA with State := ProcState.Error }
    let ks := cpB.ForkPIDs.filter (fun p => p ≠ 0)
    ({ cpB with ForkPIDs := [], PipeReadEnds := PipeArray.closedAll }, ks)
  else
    ({ cp with ForkPIDs := [], PipeReadEnds := PipeArray.closedAll }, [])

/-- The drain loop of WaitForExit (lines 690-696): repeatedly call
    WaitForData with mask 0; a Pipe_Timeout return aborts the whole call
    with 0 (false flag), a non-positive return falls through to reaping
    (true flag). -/
def wfeDrain (O : Oracle) (wfdFuel : Nat) :
    Nat → kwsysProcess → Option Rat → Ctr → List Int →
    Bool × kwsysProcess × Option Rat × Ctr × List Int
  | 0, cp, u, ctr, sigs => (true, cp, u, ctr, sigs)
  | n + 1, cp, u, ctr, sigs =>
    let R := kwsysProcess_WaitForData O wfdFuel cp 0 u ctr
    if R.ret > 0 then
      if R.ret = kwsysProcess_Pipe_Timeout then
        (false, R.cp, R.userTimeout, R.ctr, sigs ++ R.sigs)
      else wfeDrain O wfdFuel n R.cp R.userTimeout R.ctr (sigs ++ R.sigs)
    else (true, R.cp, R.userTimeout, R.ctr, sigs ++ R.sigs)

/-- The waitpid loop of WaitForExit (lines 701-715): children are reaped
    in index order; a successful waitpid stores the status, a failing
    one records the truncated strerror text and latches State = Error
    the first time only. -/
def wfeReap (O : Oracle) : Nat → Nat → kwsysProcess → kwsysProcess
  | 0, _, cp => cp
  | remaining + 1, i, cp =>
    match O.wp i with
    | Except.ok st =>
      wfeReap O remaining (i + 1)
        { cp with CommandExitCodes := cp.CommandExitCodes.set i st }
    | Except.error msg =>
      let cp2 := if cp.State ≠ ProcState.Error then
          { cp with ErrorMessage := msg.take KWSYSPE_PIPE_BUFFER_SIZE,
                    State := ProcState.Error }
        else cp
      wfeReap O remaining (i + 1) cp2

/-- The terminal-status decode of WaitForExit (lines 739-788): the
    Killed latch wins, then TimeoutExpired, then a normal exit, then a
    signal-caused death, else an internal error. -/
def wfeDecode (cp : kwsysProcess) (status : Int) : kwsysProcess :=
  if cp.Killed then { cp with State := ProcState.Killed }
  else if cp.TimeoutExpired then { cp with State := ProcState.Expired }
  else if WIFEXITED status then
    { cp with State := ProcState.Exited, ExitException := ExcCode.None,
              ExitCode := status, ExitValue := WEXITSTATUS status }
  else if WIFSIGNALED status then
    { cp with State := ProcState.Exception,
              ExitException := kwsysMapSignal (WTERMSIG status), ExitCode := status }
  else
    { cp with ErrorMessage := "Error getting child return code.",
              State := ProcState.Error }

/-- kwsysProcess_WaitForExit (lines 677-793): immediate 1 outside
    Executing; drain the pipes (a user-timeout return yields 0); reap
    every child; an Error state or the SelectError latch short-circuit
    to State = Error; otherwise decode the last command's status; always
    clean up and return 1. -/
def kwsysProcess_WaitForExit (O : Oracle) (fuel : Nat) (cp : kwsysProcess)
    (userTimeout : Option Rat) (ctr : Ctr) :
    Int × kwsysProcess × Option Rat × Ctr × List Int :=
  if cp.State ≠ ProcState.Executing then (1, cp, userTimeout, ctr, [])
  else
    match wfeDrain O fuel fuel cp userTimeout ctr [] with
    | (false, cpD, u2, ctr2, sigs) => (0, cpD, u2, ctr2, sigs)
    | (true, cpD, u2, ctr2, sigs) =>
      let n := cpD.Commands.length
      let cpR := wfeReap O n 0 cpD
      if cpR.State = ProcState.Error then
        (1, (kwsysProcessCleanup cpR false "").1, u2, ctr2, sigs)
      else if cpR.SelectError then
        let cpC := (kwsysProcessCleanup cpR false "").1
        (1, { cpC with State := ProcState.Error }, u2, ctr2, sigs)
      else
        let status := cpR.CommandExitCodes.getD (n - 1) 0
        (1, (kwsysProcessCleanup (wfeDecode cpR status) false "").1, u2, ctr2, sigs)

/-- The configuration calls of claim C8, applied between New and
    Execute; allocation oracles are carried per call. -/
inductive ConfigOp where
  | setCommand (alloc : Nat → Bool) (cmd : Option (List String))
  | addCommand (alloc : Nat → Bool) (cmd : Option (List String))
  | setTimeout (t : Rat)
  | setWorkingDirectory (dir : Option String)

def applyConfigOp (cp : kwsysProcess) : ConfigOp → kwsysProcess
  | ConfigOp.setCommand alloc cmd => (kwsysProcess_SetCommand alloc cp cmd).2
  | ConfigOp.addCommand alloc cmd => (kwsysProcess_AddCommand alloc cp cmd).2
  | ConfigOp.setTimeout t => kwsysProcess_SetTimeout cp t
  | ConfigOp.setWorkingDirectory dir => kwsysProcess_SetWorkingDirectory cp dir

def applyConfigOps (cp : kwsysProcess) : List ConfigOp → kwsysProcess
  | [] => cp
  | op :: rest => applyConfigOps (applyConfigOp cp op) rest

/-- The fields of kwsysProcess that the select loop of WaitForData never
    writes except through its select-error branch, bundled so that
    preservation is a single equation. -/
def coreFields (cp : kwsysProcess) :
    ProcState × Bool × Bool × Bool × List Int × List (List String) ×
    List Int × String :=
  (cp.State, cp.Killed, cp.SelectError, cp.TimeoutExpired, cp.ForkPIDs,
   cp.Commands, cp.CommandExitCodes, cp.ErrorMessage)

/-- The CommandExitCodes contents produced by the waitpid loop when
    every waitpid succeeds: statuses sts are stored at indices
    i, i+1, ..., i+r-1. -/
def reapCodes (sts : Nat → Int) : Nat → Nat → List Int → List Int
  | 0, _, codes => codes
  | r + 1, i, codes => reapCodes sts r (i + 1) (codes.set i (sts i))

/-- A concrete oracle for witnesses: the clock advances one second per
    call, select always times out, reads return EOF, every waitpid
    reports status 0. -/
def wOracle : Oracle :=
  { time := fun i => { tv_sec := 20 + (i : Int), tv_usec := 0 },
    sel := fun _ => SelectResult.timedOut,
    rd := fun _ => 0,
    wp := fun _ => Except.ok 0 }

/-- wOracle with the second child's waitpid reporting wait status
    7 * 256 (normal exit with code 7). -/
def wOracleExit7 : Oracle :=
  { wOracle with wp := fun i => Except.ok (if i = 1 then 7 * 256 else 0) }

/-- wOracle with the second child's waitpid reporting wait status 11
    (terminated by SIGSEGV). -/
def wOracleSegv : Oracle :=
  { wOracle with wp := fun i => Except.ok (if i = 1 then 11 else 0) }

/-- wOracle whose select fails with a non-EINTR error. -/
def wOracleErr : Oracle :=
  { wOracle with sel := fun _ => SelectResult.err "Bad file descriptor" }

/-- A concrete executing two-command group for witnesses: both children
    forked, all three pipes open, a 5 second process timeout whose
    deadline (absolute second 10) is already computed. -/
def wProc : kwsysProcess :=
  { kwsysProcess_New with
      State := ProcState.Executing,
      Commands := [["a"], ["b"]],
      ForkPIDs := [100, 101],
      CommandExitCodes := [0, 0],
      PipesLeft := 3,
      PipeReadEnds := { p0 := true, p1 := true, p2 := true },
      Timeout := 5,
      TimeoutTime := { tv_sec := 10, tv_usec := 0 },
      StartTime := { tv_sec := 5, tv_usec := 0 } }

/-- wProc with all pipes already closed (ready for WaitForExit). -/
def wProcDone : kwsysProcess :=
  { wProc with PipesLeft := 0, PipeReadEnds := PipeArray.closedAll }

/-- wProc with a distant process deadline, so that a user timeout is the
    earlier one. -/
def wProcFar : kwsysProcess :=
  { wProc with TimeoutTime := { tv_sec := 1000, tv_usec := 0 } }

def wCtr : Ctr := { t := 0, s := 0, r := 0 }

/-! ### Helper lemmas -/

theorem getTimeoutTime_fst (O : Oracle) (ctr : Ctr) (cp : kwsysProcess)
    (u : Option Rat) :
    (kwsysProcessGetTimeoutTime O ctr cp u).1 =
      { cp with TimeoutTime := lazyTT cp } := by
  cases u with
  | none => rfl
  | some uu =>
    simp only [kwsysProcessGetTimeoutTime]
    split <;> rfl

/-! ### Claims about elementary operations -/

/-- C9: for timestamps whose microsecond fields lie in [0, 1000000),
    kwsysProcessTimeSubtract (kwsysProcessTimeAdd a b) b equals a
    field-for-field, including the case where the microsecond fields sum
    to exactly 1000000 and kwsysProcessTimeAdd leaves tv_usec
    unnormalised because its carry test uses strict greater-than. -/
theorem C9_time_roundtrip (a b : kwsysProcessTime)
    (ha0 : 0 ≤ a.tv_usec) (ha1 : a.tv_usec < 1000000)
    (hb0 : 0 ≤ b.tv_usec) (hb1 : b.tv_usec < 1000000) :
    kwsysProcessTimeSubtract (kwsysProcessTimeAdd a b) b = a := by
  cases a with
  | mk as au =>
    cases b with
    | mk bs bu =>
      simp only [kwsysProcessTimeAdd, kwsysProcessTimeSubtract] at *
      split <;> split <;>
        (simp only [kwsysProcessTime.mk.injEq] at *) <;> omega

/-- Witness for C9: (1 s, 600000 us) + (2 s, 400000 us) is the exact
    carry case, and subtracting restores the first operand. -/
theorem C9_time_roundtrip_witness :
    kwsysProcessTimeSubtract
        (kwsysProcessTimeAdd { tv_sec := 1, tv_usec := 600000 }
          { tv_sec := 2, tv_usec := 400000 })
        { tv_sec := 2, tv_usec := 400000 } =
      { tv_sec := 1, tv_usec := 600000 } :=
  C9_time_roundtrip { tv_sec := 1, tv_usec := 600000 }
    { tv_sec := 2, tv_usec := 400000 } (by decide) (by decide) (by decide) (by decide)

/-- C10: AddCommand called with a null argv pointer returns 0 and
    leaves the group completely unchanged. -/
theorem C10_addCommand_null (alloc : Nat → Bool) (cp : kwsysProcess) :
    kwsysProcess_AddCommand alloc cp none = (0, cp) := rfl

/-- C5: if AddCommand (with a non-null argv) fails because any of its
    allocations fails, it returns 0 and the group is exactly what it was
    before the call: no partial command is installed. -/
theorem C5_addCommand_alloc_failure (alloc : Nat → Bool) (cp : kwsysProcess)
    (cmd : List String)
    (hfail : ¬ (alloc 0 = true ∧ alloc 1 = true ∧
                ∀ i, i < cmd.length → alloc (2 + i) = true)) :
    kwsysProcess_AddCommand alloc cp (some cmd) = (0, cp) := by
  simp only [kwsysProcess_AddCommand]
  split
  · rfl
  · split
    · rfl
    · split
      · rename_i h0 h1 hall
        exact absurd ⟨by simpa using h0, by simpa using h1,
          fun i hi => by
            simpa using List.all_eq_true.mp hall i (List.mem_range.mpr hi)⟩ hfail
      · rfl

/-- Witness for C5: the strdup of the second argument fails. -/
theorem C5_addCommand_alloc_failure_witness :
    kwsysProcess_AddCommand (fun i => i != 3) kwsysProcess_New (some ["ls", "-l"]) =
      (0, kwsysProcess_New) :=
  C5_addCommand_alloc_failure (fun i => i != 3) kwsysProcess_New ["ls", "-l"]
    (by decide)

/-- C7: SetTimeout stores max(value, 0) (negatives are clamped to
    zero), and a stored Timeout of zero disables the lazy TimeoutTime
    computation on first wait: GetTimeoutTime computes the deadline
    exactly when Timeout is nonzero and the sentinel is still in place,
    leaving the stored value untouched otherwise. -/
theorem C7_setTimeout_clamp (cp : kwsysProcess) (t : Rat) (O : Oracle) (ctr : Ctr)
    (u : Option Rat) :
    (kwsysProcess_SetTimeout cp t).Timeout = max t 0 ∧
    (cp.Timeout = 0 →
      (kwsysProcessGetTimeoutTime O ctr cp u).1.TimeoutTime = cp.TimeoutTime) ∧
    (cp.Timeout ≠ 0 → cp.TimeoutTime.tv_sec < 0 →
      (kwsysProcessGetTimeoutTime O ctr cp u).1.TimeoutTime =
        kwsysProcessTimeAdd cp.StartTime (kwsysProcessTimeFromDouble cp.Timeout)) := by
  refine ⟨?_, ?_, ?_⟩
  · simp only [kwsysProcess_SetTimeout]
    by_cases h : t < 0
    · simp [h, max_eq_right h.le]
    · simp [h, max_eq_left (not_lt.mp h)]
  · intro h0
    rw [getTimeoutTime_fst]
    simp [lazyTT, h0]
  · intro h0 h1
    rw [getTimeoutTime_fst]
    simp [lazyTT, h0, h1]

/-- Witness for C7: SetTimeout (-5) stores 0, and GetTimeoutTime on a
    group with Timeout = 0 leaves TimeoutTime in place. -/
theorem C7_setTimeout_clamp_witness :
    (kwsysProcess_SetTimeout kwsysProcess_New (-5)).Timeout = max (-5) 0 ∧
    (kwsysProcessGetTimeoutTime wOracle wCtr kwsysProcess_New none).1.TimeoutTime =
      kwsysProcess_New.TimeoutTime :=
  ⟨(C7_setTimeout_clamp kwsysProcess_New (-5) wOracle wCtr none).1,
   (C7_setTimeout_clamp kwsysProcess_New (-5) wOracle wCtr none).2.1 rfl⟩

/-! ### C8: the configuration calls preserve Starting / PipesLeft = 0 -/

theorem addCommand_snd_pres (alloc : Nat → Bool) (cp : kwsysProcess)
    (cmd : Option (List String)) :
    (kwsysProcess_AddCommand alloc cp cmd).2.State = cp.State ∧
    (kwsysProcess_AddCommand alloc cp cmd).2.PipesLeft = cp.PipesLeft := by
  cases cmd with
  | none => exact ⟨rfl, rfl⟩
  | some c =>
    simp only [kwsysProcess_AddCommand]
    split
    · exact ⟨rfl, rfl⟩
    · split
      · exact ⟨rfl, rfl⟩
      · split
        · exact ⟨rfl, rfl⟩
        · exact ⟨rfl, rfl⟩

theorem applyConfigOp_pres (cp : kwsysProcess) (op : ConfigOp) :
    (applyConfigOp cp op).State = cp.State ∧
    (applyConfigOp cp op).PipesLeft = cp.PipesLeft := by
  cases op with
  | setCommand alloc cmd =>
    cases cmd with
    | none => exact ⟨rfl, rfl⟩
    | some c =>
      simpa only [applyConfigOp, kwsysProcess_SetCommand] using
        addCommand_snd_pres alloc { cp with Commands := [] } (some c)
  | addCommand alloc cmd =>
    simpa only [applyConfigOp] using addCommand_snd_pres alloc cp cmd
  | setTimeout t =>
    simp only [applyConfigOp, kwsysProcess_SetTimeout]
    split
    · exact ⟨rfl, rfl⟩
    · exact ⟨rfl, rfl⟩
  | setWorkingDirectory d =>
    simp only [applyConfigOp, kwsysProcess_SetWorkingDirectory]
    split
    · exact ⟨rfl, rfl⟩
    · exact ⟨rfl, rfl⟩

theorem applyConfigOps_pres (ops : List ConfigOp) :
    ∀ cp : kwsysProcess,
      (applyConfigOps cp ops).State = cp.State ∧
      (applyConfigOps cp ops).PipesLeft = cp.PipesLeft := by
  induction ops with
  | nil => exact fun cp => ⟨rfl, rfl⟩
  | cons op rest ih =>
    intro cp
    have h1 := applyConfigOp_pres cp op
    have h2 := ih (applyConfigOp cp op)
    exact ⟨h2.1.trans h1.1, h2.2.trans h1.2⟩

/-- C8: for every group created by New and every finite sequence of
    SetCommand/AddCommand/SetTimeout/SetWorkingDirectory calls (with any
    arguments) containing no Execute, the group's State is Starting and
    PipesLeft is 0 after the sequence. -/
theorem C8_starting_invariant (ops : List ConfigOp) :
    (applyConfigOps kwsysProcess_New ops).State = ProcState.Starting ∧
    (applyConfigOps kwsysProcess_New ops).PipesLeft = 0 :=
  ⟨(applyConfigOps_pres ops kwsysProcess_New).1,
   (applyConfigOps_pres ops kwsysProcess_New).2⟩

/-! ### Wait-status facts -/

theorem signaled_not_exited (s : Int) :
    WIFSIGNALED s = true → WIFEXITED s = false := by
  intro h
  simp only [WIFSIGNALED, Bool.and_eq_true, decide_eq_true_eq] at h
  simp only [WIFEXITED, beq_eq_false_iff_ne, ne_eq]
  omega

/-! ### The select loop touches only pipe bookkeeping outside its
    select-error branch -/

theorem wfdPre_snd (O : Oracle) (ctr : Ctr) (cp : kwsysProcess) (u : Option Rat) :
    (wfdPre O ctr cp u).2.1 = { cp with TimeoutTime := lazyTT cp } := by
  cases u with
  | none =>
    rcases hG : kwsysProcessGetTimeoutTime O ctr cp none with ⟨cpA, ctrB, tt, user⟩
    have hfst := getTimeoutTime_fst O ctr cp none
    rw [hG] at hfst
    simp [wfdPre, hG, hfst]
  | some uu =>
    rcases hG : kwsysProcessGetTimeoutTime O { ctr with t := ctr.t + 1 } cp (some uu)
      with ⟨cpA, ctrB, tt, user⟩
    have hfst := getTimeoutTime_fst O { ctr with t := ctr.t + 1 } cp (some uu)
    rw [hG] at hfst
    simp [wfdPre, hG, hfst]

theorem wfdReadPipe_core (O : Oracle) (pipes i : Nat) (cp : kwsysProcess)
    (ctr : Ctr) :
    coreFields (wfdReadPipe O pipes i cp ctr).1 = coreFields cp := by
  simp only [wfdReadPipe]
  split
  · split
    · split
      · rfl
      · split
        · rfl
        · rfl
    · rfl
  · rfl

theorem wfdReadAll_core (O : Oracle) (pipes : Nat) (cp : kwsysProcess) (ctr : Ctr) :
    coreFields (wfdReadAll O pipes cp ctr).1 = coreFields cp := by
  unfold wfdReadAll
  rcases h0 : wfdReadPipe O pipes 0 cp ctr with ⟨cp0, ctr0, q0⟩
  have hc0 : coreFields cp0 = coreFields cp := by
    have h := wfdReadPipe_core O pipes 0 cp ctr
    rwa [h0] at h
  rcases h1 : wfdReadPipe O pipes 1 cp0 ctr0 with ⟨cp1, ctr1, q1⟩
  have hc1 : coreFields cp1 = coreFields cp0 := by
    have h := wfdReadPipe_core O pipes 1 cp0 ctr0
    rwa [h1] at h
  have hc2 : coreFields (wfdReadPipe O pipes 2 cp1 ctr1).1 = coreFields cp1 :=
    wfdReadPipe_core O pipes 2 cp1 ctr1
  simp only [h0, h1]
  split
  · exact hc0
  · split
    · exact hc1.trans hc0
    · exact hc2.trans (hc1.trans hc0)

/-- When WaitForData is entered with no pipes left, the loop exits at
    once and the call returns 0 having changed nothing but the lazily
    computed TimeoutTime (and the written-back user timeout). -/
theorem wfd_noPipes (O : Oracle) (fuel : Nat) (cp : kwsysProcess) (pipes : Nat)
    (u : Option Rat) (ctr : Ctr) (hf : 0 < fuel) (hp : cp.PipesLeft = 0) :
    ∃ ut2 ctr2 usr,
      kwsysProcess_WaitForData O fuel cp pipes u ctr =
        { ret := 0, cp := { cp with TimeoutTime := lazyTT cp }, userTimeout := ut2,
          ctr := ctr2, sigs := [], exit := WFDExit.noPipes, user := usr } := by
  obtain ⟨k, rfl⟩ := Nat.exists_eq_succ_of_ne_zero (Nat.pos_iff_ne_zero.mp hf)
  rcases hPre : wfdPre O ctr cp u with ⟨ust, cpA, ctrB, tt, user⟩
  have hA : cpA = { cp with TimeoutTime := lazyTT cp } := by
    have h := wfdPre_snd O ctr cp u
    rwa [hPre] at h
  subst hA
  have hloop : wfdLoop O pipes tt (k + 1) { cp with TimeoutTime := lazyTT cp } ctrB [] =
      { cp := { cp with TimeoutTime := lazyTT cp }, ctr := ctrB, sigs := [],
        exit := WFDExit.noPipes } := by
    have hpl : ({ cp with TimeoutTime := lazyTT cp } : kwsysProcess).PipesLeft ≤ 0 := by
      simp [hp]
    simp [wfdLoop, wfdStep, hpl]
  cases u with
  | none =>
    refine ⟨none, ctrB, user, ?_⟩
    simp [kwsysProcess_WaitForData, hPre, hloop, wfdPost, wfdDispatch]
  | some uu =>
    refine ⟨some (if uu - kwsysProcessTimeToDouble
                      (kwsysProcessTimeSubtract (O.time ctrB.t) ust) < 0 then 0
                  else uu - kwsysProcessTimeToDouble
                      (kwsysProcessTimeSubtract (O.time ctrB.t) ust)),
            { ctrB with t := ctrB.t + 1 }, user, ?_⟩
    simp [kwsysProcess_WaitForData, hPre, hloop, wfdPost, wfdDispatch]

/-- The drain loop of WaitForExit, entered with no pipes left, proceeds
    to reaping with only TimeoutTime possibly changed. -/
theorem wfeDrain_noPipes (O : Oracle) (wfdFuel n : Nat) (cp : kwsysProcess)
    (u : Option Rat) (ctr : Ctr) (sigs : List Int)
    (hf : 0 < wfdFuel) (hn : 0 < n) (hp : cp.PipesLeft = 0) :
    ∃ u2 ctr2, wfeDrain O wfdFuel n cp u ctr sigs =
      (true, { cp with TimeoutTime := lazyTT cp }, u2, ctr2, sigs) := by
  obtain ⟨m, rfl⟩ := Nat.exists_eq_succ_of_ne_zero (Nat.pos_iff_ne_zero.mp hn)
  obtain ⟨ut2, ctr2, usr, hR⟩ := wfd_noPipes O wfdFuel cp 0 u ctr hf hp
  refine ⟨ut2, ctr2, ?_⟩
  simp [wfeDrain, hR]

theorem coreFields_eq_iff {a b : kwsysProcess}
    (h : coreFields a = coreFields b) :
    a.State = b.State ∧ a.Killed = b.Killed ∧ a.SelectError = b.SelectError ∧
    a.TimeoutExpired = b.TimeoutExpired ∧ a.ForkPIDs = b.ForkPIDs ∧
    a.Commands = b.Commands ∧ a.CommandExitCodes = b.CommandExitCodes ∧
    a.ErrorMessage = b.ErrorMessage := by
  simpa [coreFields, Prod.mk.injEq] using h


theorem kill_fst (cp : kwsysProcess) :
    (kwsysProcess_Kill cp).1 =
      if cp.State = ProcState.Executing then { cp with Killed := true } else cp := by
  simp only [kwsysProcess_Kill]
  split <;> rfl

theorem kill_snd (cp : kwsysProcess) :
    (kwsysProcess_Kill cp).2 =
      if cp.State = ProcState.Executing then
        cp.ForkPIDs.filter (fun p => p ≠ 0)
      else [] := by
  simp only [kwsysProcess_Kill]
  split <;> rfl


/-- Facts about one loop iteration: a continuation preserves the core
    fields; an exit other than select-error preserves the core fields
    and the signal log; the select-error exit clears Killed, sets
    SelectError, zeroes PipesLeft, records the truncated strerror text
    and (when executing) kills every nonzero child pid. -/
theorem wfdStep_facts (O : Oracle) (pipes : Nat) (tt : kwsysProcessTime)
    (cp : kwsysProcess) (ctr : Ctr) (sigs : List Int) :
    (∀ cp2 ctr2, wfdStep O pipes tt cp ctr sigs = Sum.inr (cp2, ctr2) →
      coreFields cp2 = coreFields cp) ∧
    (∀ r, wfdStep O pipes tt cp ctr sigs = Sum.inl r →
      (r.exit ≠ WFDExit.selErr →
        coreFields r.cp = coreFields cp ∧ r.sigs = sigs) ∧
      (r.exit = WFDExit.selErr →
        r.cp.State = cp.State ∧ r.cp.Killed = false ∧ r.cp.SelectError = true ∧
        r.cp.PipesLeft = 0 ∧ r.cp.ForkPIDs = cp.ForkPIDs ∧
        r.cp.Commands = cp.Commands ∧
        r.cp.CommandExitCodes = cp.CommandExitCodes ∧
        r.cp.TimeoutExpired = cp.TimeoutExpired ∧
        (cp.State = ProcState.Executing →
          r.sigs = sigs ++ cp.ForkPIDs.filter (fun p => p ≠ 0)) ∧
        (∃ j msg, O.sel j = SelectResult.err msg ∧
          r.cp.ErrorMessage = msg.take KWSYSPE_PIPE_BUFFER_SIZE))) := by
  unfold wfdStep
  by_cases hpl : cp.PipesLeft ≤ 0
  · rw [if_pos hpl]
    refine ⟨fun cp2 ctr2 h => Sum.noConfusion h, fun r h => ?_⟩
    injection h with h
    subst h
    exact ⟨fun _ => ⟨rfl, rfl⟩, fun hx => WFDExit.noConfusion hx⟩
  · rw [if_neg hpl]
    rcases hRA : wfdReadAll O pipes cp ctr with ⟨cp1, ctr1, pid⟩
    have hc1 : coreFields cp1 = coreFields cp := by
      have hx := wfdReadAll_core O pipes cp ctr
      rw [hRA] at hx
      exact hx
    obtain ⟨hSt, hKi, hSe, hTe, hFp, hCm, hCc, hEm⟩ := coreFields_eq_iff hc1
    dsimp only
    by_cases hpid : pid ≠ 0
    · rw [if_pos hpid]
      refine ⟨fun cp2 ctr2 h => Sum.noConfusion h, fun r h => ?_⟩
      injection h with h
      subst h
      exact ⟨fun _ => ⟨hc1, rfl⟩, fun hx => WFDExit.noConfusion hx⟩
    · rw [if_neg hpid]
      by_cases hclosed : cp1.PipeReadEnds = PipeArray.closedAll
      · rw [if_pos hclosed]
        refine ⟨fun cp2 ctr2 h => Sum.noConfusion h, fun r h => ?_⟩
        injection h with h
        subst h
        exact ⟨fun _ => ⟨hc1, rfl⟩, fun hx => WFDExit.noConfusion hx⟩
      · rw [if_neg hclosed]
        rcases hTL : kwsysProcessGetTimeoutLeft O ctr1 tt with ⟨ctr2, expired⟩
        dsimp only
        by_cases hE : expired = true
        · rw [if_pos hE]
          refine ⟨fun cp2 ctr2 h => Sum.noConfusion h, fun r h => ?_⟩
          injection h with h
          subst h
          exact ⟨fun _ => ⟨hc1, rfl⟩, fun hx => WFDExit.noConfusion hx⟩
        · rw [if_neg hE]
          cases hS : O.sel ctr2.s with
          | timedOut =>
            dsimp only
            refine ⟨fun cp2 ctr2 h => Sum.noConfusion h, fun r h => ?_⟩
            injection h with h
            subst h
            exact ⟨fun _ => ⟨hc1, rfl⟩, fun hx => WFDExit.noConfusion hx⟩
          | ready fds =>
            dsimp only
            refine ⟨fun cp2 ctr2 h => ?_, fun r h => Sum.noConfusion h⟩
            injection h with h
            injection h with h1 h2
            subst h1
            exact hc1
          | err msg =>
            dsimp only
            rw [kill_fst, kill_snd]
            by_cases hX : cp1.State = ProcState.Executing
            · rw [if_pos hX, if_pos hX]
              refine ⟨fun cp2 ctr2 h => Sum.noConfusion h, fun r h => ?_⟩
              injection h with h
              subst h
              refine ⟨fun hx => absurd rfl hx, fun _ => ?_⟩
              exact ⟨hSt, rfl, rfl, rfl, hFp, hCm, hCc, hTe,
                fun _ => by rw [hFp], ⟨ctr2.s, msg, hS, by dsimp only⟩⟩
            · rw [if_neg hX, if_neg hX]
              refine ⟨fun cp2 ctr2 h => Sum.noConfusion h, fun r h => ?_⟩
              injection h with h
              subst h
              refine ⟨fun hx => absurd rfl hx, fun _ => ?_⟩
              refine ⟨hSt, rfl, rfl, rfl, hFp, hCm, hCc, hTe, ?_,
                ⟨ctr2.s, msg, hS, by dsimp only⟩⟩
              intro hcpSt
              exact absurd (hSt.trans hcpSt) hX

/-- A run of the select loop that does not exit through the
    select-error branch preserves every core field and sends no
    signals. -/
theorem wfdLoop_not_selErr (O : Oracle) (pipes : Nat) (tt : kwsysProcessTime) :
    ∀ (fuel : Nat) (cp : kwsysProcess) (ctr : Ctr) (sigs : List Int),
      (wfdLoop O pipes tt fuel cp ctr sigs).exit ≠ WFDExit.selErr →
      coreFields (wfdLoop O pipes tt fuel cp ctr sigs).cp = coreFields cp ∧
      (wfdLoop O pipes tt fuel cp ctr sigs).sigs = sigs := by
  intro fuel
  induction fuel with
  | zero => intro cp ctr sigs _; exact ⟨rfl, rfl⟩
  | succ k ih =>
    intro cp ctr sigs h
    simp only [wfdLoop] at h ⊢
    cases hStep : wfdStep O pipes tt cp ctr sigs with
    | inl r =>
      rw [hStep] at h
      dsimp only at h ⊢
      exact ((wfdStep_facts O pipes tt cp ctr sigs).2 r hStep).1 h
    | inr pr =>
      obtain ⟨cp2, ctr2⟩ := pr
      rw [hStep] at h
      dsimp only at h ⊢
      obtain ⟨hcore, hsigs⟩ := ih cp2 ctr2 sigs h
      exact ⟨hcore.trans ((wfdStep_facts O pipes tt cp ctr sigs).1 cp2 ctr2 hStep),
        hsigs⟩

/-- A run of the select loop that exits through the select-error branch
    (lines 617-628) keeps State, ForkPIDs, Commands, CommandExitCodes
    and TimeoutExpired, clears Killed, sets SelectError, zeroes
    PipesLeft, records the truncated strerror text of some failed
    select, and (when executing) sends SIGKILL to every nonzero child
    pid. -/
theorem wfdLoop_selErr (O : Oracle) (pipes : Nat) (tt : kwsysProcessTime) :
    ∀ (fuel : Nat) (cp : kwsysProcess) (ctr : Ctr) (sigs : List Int),
      (wfdLoop O pipes tt fuel cp ctr sigs).exit = WFDExit.selErr →
      (wfdLoop O pipes tt fuel cp ctr sigs).cp.State = cp.State ∧
      (wfdLoop O pipes tt fuel cp ctr sigs).cp.Killed = false ∧
      (wfdLoop O pipes tt fuel cp ctr sigs).cp.SelectError = true ∧
      (wfdLoop O pipes tt fuel cp ctr sigs).cp.PipesLeft = 0 ∧
      (wfdLoop O pipes tt fuel cp ctr sigs).cp.ForkPIDs = cp.ForkPIDs ∧
      (wfdLoop O pipes tt fuel cp ctr sigs).cp.Commands = cp.Commands ∧
      (wfdLoop O pipes tt fuel cp ctr sigs).cp.CommandExitCodes =
        cp.CommandExitCodes ∧
      (wfdLoop O pipes tt fuel cp ctr sigs).cp.TimeoutExpired = cp.TimeoutExpired ∧
      (cp.State = ProcState.Executing →
        (wfdLoop O pipes tt fuel cp ctr sigs).sigs =
          sigs ++ cp.ForkPIDs.filter (fun p => p ≠ 0)) ∧
      (∃ j msg, O.sel j = SelectResult.err msg ∧
        (wfdLoop O pipes tt fuel cp ctr sigs).cp.ErrorMessage =
          msg.take KWSYSPE_PIPE_BUFFER_SIZE) := by
  intro fuel
  induction fuel with
  | zero => intro cp ctr sigs h; exact WFDExit.noConfusion h
  | succ k ih =>
    intro cp ctr sigs h
    simp only [wfdLoop] at h ⊢
    cases hStep : wfdStep O pipes tt cp ctr sigs with
    | inl r =>
      rw [hStep] at h
      dsimp only at h ⊢
      exact ((wfdStep_facts O pipes tt cp ctr sigs).2 r hStep).2 h
    | inr pr =>
      obtain ⟨cp2, ctr2⟩ := pr
      rw [hStep] at h
      dsimp only at h ⊢
      obtain ⟨iSt, iKi, iSe, iPl, iFp, iCm, iCc, iTe, iSg, iEx⟩ := ih cp2 ctr2 sigs h
      obtain ⟨hSt, hKi, hSe, hTe, hFp, hCm, hCc, hEm⟩ :=
        coreFields_eq_iff ((wfdStep_facts O pipes tt cp ctr sigs).1 cp2 ctr2 hStep)
      refine ⟨iSt.trans hSt, iKi, iSe, iPl, iFp.trans hFp, iCm.trans hCm,
        iCc.trans hCc, iTe.trans hTe, ?_, iEx⟩
      intro hcpSt
      have hX : cp2.State = ProcState.Executing := by rw [hSt]; exact hcpSt
      rw [iSg hX, hFp]

/-! ### The waitpid loop and the terminal decode -/

theorem wfeReap_ok (O : Oracle) (sts : Nat → Int) :
    ∀ (r i : Nat) (cp : kwsysProcess),
      (∀ j, i ≤ j → j < i + r → O.wp j = Except.ok (sts j)) →
      wfeReap O r i cp =
        { cp with CommandExitCodes := reapCodes sts r i cp.CommandExitCodes } := by
  intro r
  induction r with
  | zero => intro i cp _; rfl
  | succ k ih =>
    intro i cp h
    have h0 : O.wp i = Except.ok (sts i) := h i (Nat.le_refl i) (by omega)
    simp only [wfeReap, h0, reapCodes]
    exact ih (i + 1) _ (fun j hj1 hj2 => h j (by omega) (by omega))

theorem reapCodes_getD_lt (sts : Nat → Int) :
    ∀ (r i : Nat) (codes : List Int) (k : Nat), k < i →
      (reapCodes sts r i codes).getD k 0 = codes.getD k 0 := by
  intro r
  induction r with
  | zero => intro i codes k _; rfl
  | succ m ih =>
    intro i codes k hk
    simp only [reapCodes]
    rw [ih (i + 1) _ k (by omega)]
    simp only [List.getD_eq_getElem?_getD]
    rw [List.getElem?_set_ne (by omega)]

theorem reapCodes_getD_mem (sts : Nat → Int) :
    ∀ (r i : Nat) (codes : List Int) (k : Nat),
      i ≤ k → k < i + r → k < codes.length →
      (reapCodes sts r i codes).getD k 0 = sts k := by
  intro r
  induction r with
  | zero => intro i codes k h1 h2 _; omega
  | succ m ih =>
    intro i codes k h1 h2 h3
    simp only [reapCodes]
    by_cases hk : k = i
    · subst hk
      rw [reapCodes_getD_lt sts m (k + 1) _ k (by omega)]
      simp only [List.getD_eq_getElem?_getD]
      rw [List.getElem?_set_self h3]
      rfl
    · exact ih (i + 1) _ k (by omega) (by omega) (by simpa using h3)

theorem cleanup_false_State (cp : kwsysProcess) :
    (kwsysProcessCleanup cp false "").1.State = cp.State := rfl

theorem cleanup_false_ExitValue (cp : kwsysProcess) :
    (kwsysProcessCleanup cp false "").1.ExitValue = cp.ExitValue := rfl

theorem cleanup_false_ExitException (cp : kwsysProcess) :
    (kwsysProcessCleanup cp false "").1.ExitException = cp.ExitException := rfl

/-- Master computation of WaitForExit (lines 677-793) for an executing
    group with all pipes closed whose children are reaped without a
    waitpid error: the call returns 1, the final State follows the
    decode chain of the latches and the last command's wait status, and
    the exit payload fields are set on the normal-exit and signal
    branches. -/
theorem wfe_run (O : Oracle) (fuel : Nat) (cp : kwsysProcess) (u : Option Rat)
    (ctr : Ctr) (sts : Nat → Int)
    (hf : 0 < fuel) (hs : cp.State = ProcState.Executing) (hp : cp.PipesLeft = 0)
    (hn : 0 < cp.Commands.length)
    (hlen : cp.CommandExitCodes.length = cp.Commands.length)
    (hwp : ∀ j, j < cp.Commands.length → O.wp j = Except.ok (sts j)) :
    (kwsysProcess_WaitForExit O fuel cp u ctr).1 = 1 ∧
    (kwsysProcess_WaitForExit O fuel cp u ctr).2.1.State =
      (if cp.SelectError then ProcState.Error
       else if cp.Killed then ProcState.Killed
       else if cp.TimeoutExpired then ProcState.Expired
       else if WIFEXITED (sts (cp.Commands.length - 1)) then ProcState.Exited
       else if WIFSIGNALED (sts (cp.Commands.length - 1)) then ProcState.Exception
       else ProcState.Error) ∧
    (cp.SelectError = false → cp.Killed = false → cp.TimeoutExpired = false →
      (WIFEXITED (sts (cp.Commands.length - 1)) = true →
        (kwsysProcess_WaitForExit O fuel cp u ctr).2.1.ExitValue =
          WEXITSTATUS (sts (cp.Commands.length - 1)) ∧
        (kwsysProcess_WaitForExit O fuel cp u ctr).2.1.ExitException =
          ExcCode.None) ∧
      (WIFSIGNALED (sts (cp.Commands.length - 1)) = true →
        (kwsysProcess_WaitForExit O fuel cp u ctr).2.1.ExitException =
          kwsysMapSignal (WTERMSIG (sts (cp.Commands.length - 1))))) := by
  obtain ⟨u2, ctr2, hD⟩ := wfeDrain_noPipes O fuel fuel cp u ctr [] hf hf hp
  have hnotexec : ¬ (cp.State ≠ ProcState.Executing) := by simp [hs]
  have hreap := wfeReap_ok O sts cp.Commands.length 0
    { cp with TimeoutTime := lazyTT cp }
    (fun j hj1 hj2 => hwp j (by omega))
  have hgetd : (reapCodes sts cp.Commands.length 0 cp.CommandExitCodes).getD
      (cp.Commands.length - 1) 0 = sts (cp.Commands.length - 1) :=
    reapCodes_getD_mem sts cp.Commands.length 0 cp.CommandExitCodes
      (cp.Commands.length - 1) (Nat.zero_le _) (by omega) (by omega)
  have hnotErr : ¬ (cp.State = ProcState.Error) := by
    rw [hs]
    intro hx
    exact ProcState.noConfusion hx
  set cpR : kwsysProcess :=
    { cp with
        TimeoutTime := lazyTT cp,
        CommandExitCodes := reapCodes sts cp.Commands.length 0 cp.CommandExitCodes }
    with hcpR
  have hRk : cpR.Killed = cp.Killed := by rw [hcpR]
  have hRt : cpR.TimeoutExpired = cp.TimeoutExpired := by rw [hcpR]
  have hEq : kwsysProcess_WaitForExit O fuel cp u ctr =
      (if cp.SelectError then
        (1, { (kwsysProcessCleanup cpR false "").1 with State := ProcState.Error },
          u2, ctr2, [])
      else
        (1, (kwsysProcessCleanup
            (wfeDecode cpR (sts (cp.Commands.length - 1))) false "").1,
          u2, ctr2, [])) := by
    simp only [kwsysProcess_WaitForExit]
    rw [if_neg hnotexec, hD]
    dsimp only
    rw [hreap]
    rw [if_neg (show ¬ (cpR.State = ProcState.Error) by
      rw [hcpR]; exact hnotErr)]
    by_cases hSE : cpR.SelectError
    · have hSE2 : cp.SelectError = true := by rw [hcpR] at hSE; exact hSE
      rw [if_pos hSE, if_pos hSE2]
    · have hSE2 : ¬ (cp.SelectError = true) := by
        intro hx
        apply hSE
        rw [hcpR]
        exact hx
      rw [if_neg hSE, if_neg hSE2]
      have hRc : cpR.CommandExitCodes =
          reapCodes sts cp.Commands.length 0 cp.CommandExitCodes := by rw [hcpR]
      rw [hRc, hgetd]
  rw [hEq]
  by_cases hSE : cp.SelectError
  · rw [if_pos hSE]
    refine ⟨rfl, ?_, ?_⟩
    · rw [if_pos hSE]
    · intro hSE' _ _
      rw [hSE'] at hSE
      exact Bool.noConfusion hSE
  · rw [if_neg hSE]
    refine ⟨rfl, ?_, ?_⟩
    · rw [if_neg hSE, cleanup_false_State]
      simp only [wfeDecode]
      rw [hRk, hRt]
      by_cases hK : cp.Killed
      · rw [if_pos hK, if_pos hK]
      · rw [if_neg hK, if_neg hK]
        by_cases hT : cp.TimeoutExpired
        · rw [if_pos hT, if_pos hT]
        · rw [if_neg hT, if_neg hT]
          by_cases hEx : WIFEXITED (sts (cp.Commands.length - 1)) = true
          · rw [if_pos hEx, if_pos hEx]
          · rw [if_neg hEx, if_neg hEx]
            by_cases hSg : WIFSIGNALED (sts (cp.Commands.length - 1)) = true
            · rw [if_pos hSg, if_pos hSg]
            · rw [if_neg hSg, if_neg hSg]
    · intro _ hK0 hT0
      simp only [cleanup_false_ExitValue, cleanup_false_ExitException]
      simp only [wfeDecode]
      rw [hRk, hRt]
      rw [if_neg (show ¬ (cp.Killed = true) by
        rw [hK0]; exact fun hx => Bool.noConfusion hx)]
      rw [if_neg (show ¬ (cp.TimeoutExpired = true) by
        rw [hT0]; exact fun hx => Bool.noConfusion hx)]
      refine ⟨fun hEx => ?_, fun hSg => ?_⟩
      · rw [if_pos hEx]
        exact ⟨rfl, rfl⟩
      · rw [if_neg (show ¬ (WIFEXITED (sts (cp.Commands.length - 1)) = true) by
          rw [signaled_not_exited _ hSg]; exact fun hx => Bool.noConfusion hx)]
        rw [if_pos hSg]

/-! ### The disposition of WaitForData -/

theorem wfdDispatch_exit (lr : LoopResult) (ut2 : Option Rat) (ctrC : Ctr)
    (user : Bool) :
    (wfdDispatch lr ut2 ctrC user).exit = lr.exit ∧
    (wfdDispatch lr ut2 ctrC user).user = user := by
  cases hLex : lr.exit <;>
    (simp [wfdDispatch, hLex]
     try (split <;> simp))

theorem wfdPost_exit (O : Oracle) (u : Option Rat) (ust : kwsysProcessTime)
    (user : Bool) (lr : LoopResult) :
    (wfdPost O u ust user lr).exit = lr.exit ∧
    (wfdPost O u ust user lr).user = user := by
  cases u with
  | none => exact wfdDispatch_exit lr none lr.ctr user
  | some uu => exact wfdDispatch_exit lr _ _ user

theorem wfdDispatch_expired_false (lr : LoopResult) (ut2 : Option Rat) (ctrC : Ctr)
    (hLex : lr.exit = WFDExit.expiredLoop) :
    wfdDispatch lr ut2 ctrC false =
      { ret := 0,
        cp := { (kwsysProcess_Kill lr.cp).1 with
                  Killed := false, TimeoutExpired := true, PipesLeft := 0 },
        userTimeout := ut2, ctr := ctrC,
        sigs := lr.sigs ++ (kwsysProcess_Kill lr.cp).2,
        exit := lr.exit, user := false } := by
  simp only [wfdDispatch, hLex]
  rw [if_neg (show ¬ ((false : Bool) = true) from fun hx => Bool.noConfusion hx)]

theorem wfdPost_expired_false (O : Oracle) (u : Option Rat) (ust : kwsysProcessTime)
    (lr : LoopResult) (hLex : lr.exit = WFDExit.expiredLoop) :
    ∃ ut2 ctrC, wfdPost O u ust false lr =
      { ret := 0,
        cp := { (kwsysProcess_Kill lr.cp).1 with
                  Killed := false, TimeoutExpired := true, PipesLeft := 0 },
        userTimeout := ut2, ctr := ctrC,
        sigs := lr.sigs ++ (kwsysProcess_Kill lr.cp).2,
        exit := lr.exit, user := false } := by
  cases u with
  | none => exact ⟨none, lr.ctr, wfdDispatch_expired_false lr none lr.ctr hLex⟩
  | some uu =>
    exact ⟨some (if uu - kwsysProcessTimeToDouble
            (kwsysProcessTimeSubtract (O.time lr.ctr.t) ust) < 0 then 0
          else uu - kwsysProcessTimeToDouble
            (kwsysProcessTimeSubtract (O.time lr.ctr.t) ust)),
      { lr.ctr with t := lr.ctr.t + 1 },
      wfdDispatch_expired_false lr _ _ hLex⟩

theorem wfdDispatch_selErr (lr : LoopResult) (ut2 : Option Rat) (ctrC : Ctr)
    (user : Bool) (hLex : lr.exit = WFDExit.selErr) :
    wfdDispatch lr ut2 ctrC user =
      { ret := 0, cp := lr.cp, userTimeout := ut2, ctr := ctrC,
        sigs := lr.sigs, exit := lr.exit, user := user } := by
  simp only [wfdDispatch, hLex]

theorem wfdPost_selErr (O : Oracle) (u : Option Rat) (ust : kwsysProcessTime)
    (user : Bool) (lr : LoopResult) (hLex : lr.exit = WFDExit.selErr) :
    ∃ ut2 ctrC, wfdPost O u ust user lr =
      { ret := 0, cp := lr.cp, userTimeout := ut2, ctr := ctrC,
        sigs := lr.sigs, exit := lr.exit, user := user } := by
  cases u with
  | none => exact ⟨none, lr.ctr, wfdDispatch_selErr lr none lr.ctr user hLex⟩
  | some uu =>
    exact ⟨some (if uu - kwsysProcessTimeToDouble
            (kwsysProcessTimeSubtract (O.time lr.ctr.t) ust) < 0 then 0
          else uu - kwsysProcessTimeToDouble
            (kwsysProcessTimeSubtract (O.time lr.ctr.t) ust)),
      { lr.ctr with t := lr.ctr.t + 1 },
      wfdDispatch_selErr lr _ _ user hLex⟩

theorem wfdPost_expired_false_fields (O : Oracle) (u : Option Rat)
    (ust : kwsysProcessTime) (lr : LoopResult)
    (hLex : lr.exit = WFDExit.expiredLoop) :
    (wfdPost O u ust false lr).ret = 0 ∧
    (wfdPost O u ust false lr).cp.Killed = false ∧
    (wfdPost O u ust false lr).cp.TimeoutExpired = true ∧
    (wfdPost O u ust false lr).cp.PipesLeft = 0 ∧
    (wfdPost O u ust false lr).cp.State = lr.cp.State ∧
    (wfdPost O u ust false lr).cp.SelectError = lr.cp.SelectError ∧
    (wfdPost O u ust false lr).cp.Commands = lr.cp.Commands ∧
    (wfdPost O u ust false lr).cp.CommandExitCodes = lr.cp.CommandExitCodes ∧
    (wfdPost O u ust false lr).cp.ForkPIDs = lr.cp.ForkPIDs ∧
    (wfdPost O u ust false lr).sigs = lr.sigs ++ (kwsysProcess_Kill lr.cp).2 := by
  obtain ⟨ut2, ctrC, hPost⟩ := wfdPost_expired_false O u ust lr hLex
  rw [hPost]
  refine ⟨rfl, rfl, rfl, rfl, ?_, ?_, ?_, ?_, ?_, rfl⟩
  all_goals
    rw [kill_fst]
    split <;> rfl

theorem wfdPost_selErr_fields (O : Oracle) (u : Option Rat)
    (ust : kwsysProcessTime) (user : Bool) (lr : LoopResult)
    (hLex : lr.exit = WFDExit.selErr) :
    (wfdPost O u ust user lr).ret = 0 ∧
    (wfdPost O u ust user lr).cp = lr.cp ∧
    (wfdPost O u ust user lr).sigs = lr.sigs := by
  obtain ⟨ut2, ctrC, hPost⟩ := wfdPost_selErr O u ust user lr hLex
  rw [hPost]
  exact ⟨rfl, rfl, rfl⟩

/-! ### C2: process-timeout expiry -/

/-- C2: for an executing group whose process timeout expires while no
    user timeout is pending earlier (the select loop exits expired with
    the user flag false), WaitForData kills all children, clears the
    Killed latch, sets TimeoutExpired, zeroes PipesLeft and returns 0;
    the subsequent WaitForExit then sets State = Expired (not Killed),
    because the Killed-latch branch is checked first but the latch has
    been cleared. -/
theorem C2_process_timeout (O : Oracle) (fuel fuel2 : Nat) (cp : kwsysProcess)
    (pipes : Nat) (u u2 : Option Rat) (ctr ctr2 : Ctr) (sts : Nat → Int)
    (hs : cp.State = ProcState.Executing) (hse : cp.SelectError = false)
    (hex : (kwsysProcess_WaitForData O fuel cp pipes u ctr).exit =
      WFDExit.expiredLoop)
    (huser : (kwsysProcess_WaitForData O fuel cp pipes u ctr).user = false)
    (hf2 : 0 < fuel2) (hn : 0 < cp.Commands.length)
    (hlen : cp.CommandExitCodes.length = cp.Commands.length)
    (hwp : ∀ j, j < cp.Commands.length → O.wp j = Except.ok (sts j)) :
    (kwsysProcess_WaitForData O fuel cp pipes u ctr).ret = 0 ∧
    (kwsysProcess_WaitForData O fuel cp pipes u ctr).cp.Killed = false ∧
    (kwsysProcess_WaitForData O fuel cp pipes u ctr).cp.TimeoutExpired = true ∧
    (kwsysProcess_WaitForData O fuel cp pipes u ctr).cp.PipesLeft = 0 ∧
    (kwsysProcess_WaitForData O fuel cp pipes u ctr).sigs =
      cp.ForkPIDs.filter (fun p => p ≠ 0) ∧
    (kwsysProcess_WaitForExit O fuel2
      (kwsysProcess_WaitForData O fuel cp pipes u ctr).cp u2 ctr2).1 = 1 ∧
    (kwsysProcess_WaitForExit O fuel2
      (kwsysProcess_WaitForData O fuel cp pipes u ctr).cp u2 ctr2).2.1.State =
      ProcState.Expired := by
  rcases hPre : wfdPre O ctr cp u with ⟨ust, cpA, ctrB, tt, user⟩
  have hA : cpA = { cp with TimeoutTime := lazyTT cp } := by
    have h := wfdPre_snd O ctr cp u
    rwa [hPre] at h
  have hRdef : kwsysProcess_WaitForData O fuel cp pipes u ctr =
      wfdPost O u ust user (wfdLoop O pipes tt fuel cpA ctrB []) := by
    simp only [kwsysProcess_WaitForData, hPre]
  rw [hRdef] at hex huser ⊢
  set lr := wfdLoop O pipes tt fuel cpA ctrB [] with hlr
  have huser2 : user = false := by
    rw [(wfdPost_exit O u ust user lr).2] at huser
    exact huser
  subst huser2
  have hLex : lr.exit = WFDExit.expiredLoop := by
    rw [(wfdPost_exit O u ust false lr).1] at hex
    exact hex
  obtain ⟨hcore, hsigs⟩ := wfdLoop_not_selErr O pipes tt fuel cpA ctrB []
    (by rw [← hlr, hLex]; exact fun hx => WFDExit.noConfusion hx)
  rw [← hlr] at hcore hsigs
  obtain ⟨lSt, lKi, lSe, lTe, lFp, lCm, lCc, lEm⟩ := coreFields_eq_iff hcore
  have hLst : lr.cp.State = ProcState.Executing := by
    rw [lSt, hA]
    exact hs
  obtain ⟨pRet, pKi, pTe, pPl, pSt, pSe, pCm, pCc, pFp, pSg⟩ :=
    wfdPost_expired_false_fields O u ust lr hLex
  have hs2 : (wfdPost O u ust false lr).cp.State = ProcState.Executing := by
    rw [pSt]
    exact hLst
  have hn2 : 0 < (wfdPost O u ust false lr).cp.Commands.length := by
    rw [pCm, lCm, hA]
    exact hn
  have hlen2 : (wfdPost O u ust false lr).cp.CommandExitCodes.length =
      (wfdPost O u ust false lr).cp.Commands.length := by
    rw [pCc, pCm, lCc, lCm, hA]
    exact hlen
  have hwp2 : ∀ j, j < (wfdPost O u ust false lr).cp.Commands.length →
      O.wp j = Except.ok (sts j) := by
    intro j hj
    apply hwp
    rw [pCm, lCm, hA] at hj
    exact hj
  have hw := wfe_run O fuel2 _ u2 ctr2 sts hf2 hs2 pPl hn2 hlen2 hwp2
  refine ⟨pRet, pKi, pTe, pPl, ?_, hw.1, ?_⟩
  · rw [pSg, hsigs, kill_snd, if_pos hLst, lFp, hA]
    simp
  · rw [hw.2.1]
    have hse2 : (wfdPost O u ust false lr).cp.SelectError = false := by
      rw [pSe, lSe, hA]
      exact hse
    simp [hse2, pKi, pTe]

/-- Witness for C2: two-command group with a 5-second timeout whose
    deadline (absolute second 10) has already passed when the clock
    reads 20; select always times out, every waitpid reports status 0. -/
theorem C2_process_timeout_witness :
    (kwsysProcess_WaitForData wOracle 5 wProc 0 none wCtr).ret = 0 ∧
    (kwsysProcess_WaitForData wOracle 5 wProc 0 none wCtr).cp.Killed = false ∧
    (kwsysProcess_WaitForData wOracle 5 wProc 0 none wCtr).cp.TimeoutExpired = true ∧
    (kwsysProcess_WaitForData wOracle 5 wProc 0 none wCtr).cp.PipesLeft = 0 ∧
    (kwsysProcess_WaitForData wOracle 5 wProc 0 none wCtr).sigs =
      wProc.ForkPIDs.filter (fun p => p ≠ 0) ∧
    (kwsysProcess_WaitForExit wOracle 1
      (kwsysProcess_WaitForData wOracle 5 wProc 0 none wCtr).cp none wCtr).1 = 1 ∧
    (kwsysProcess_WaitForExit wOracle 1
      (kwsysProcess_WaitForData wOracle 5 wProc 0 none wCtr).cp none wCtr).2.1.State =
      ProcState.Expired :=
  C2_process_timeout wOracle 5 1 wProc 0 none none wCtr wCtr (fun j => 0)
    rfl rfl (by decide) (by decide) (by decide) (by decide) (by decide)
    (fun j hj => rfl)

/-! ### C4: select failure -/

/-- C4: for an executing group in which select fails with an error
    other than EINTR, WaitForData copies the error string into
    ErrorMessage (truncated to the pipe buffer size), kills all
    children, clears the Killed latch, sets SelectError and zeroes
    PipesLeft; the subsequent WaitForExit then returns 1 with
    State = Error rather than Killed. -/
theorem C4_select_error (O : Oracle) (fuel fuel2 : Nat) (cp : kwsysProcess)
    (pipes : Nat) (u u2 : Option Rat) (ctr ctr2 : Ctr) (sts : Nat → Int)
    (hs : cp.State = ProcState.Executing)
    (hex : (kwsysProcess_WaitForData O fuel cp pipes u ctr).exit = WFDExit.selErr)
    (hf2 : 0 < fuel2) (hn : 0 < cp.Commands.length)
    (hlen : cp.CommandExitCodes.length = cp.Commands.length)
    (hwp : ∀ j, j < cp.Commands.length → O.wp j = Except.ok (sts j)) :
    (kwsysProcess_WaitForData O fuel cp pipes u ctr).ret = 0 ∧
    (kwsysProcess_WaitForData O fuel cp pipes u ctr).cp.Killed = false ∧
    (kwsysProcess_WaitForData O fuel cp pipes u ctr).cp.SelectError = true ∧
    (kwsysProcess_WaitForData O fuel cp pipes u ctr).cp.PipesLeft = 0 ∧
    (kwsysProcess_WaitForData O fuel cp pipes u ctr).sigs =
      cp.ForkPIDs.filter (fun p => p ≠ 0) ∧
    (∃ j msg, O.sel j = SelectResult.err msg ∧
      (kwsysProcess_WaitForData O fuel cp pipes u ctr).cp.ErrorMessage =
        msg.take KWSYSPE_PIPE_BUFFER_SIZE) ∧
    (kwsysProcess_WaitForExit O fuel2
      (kwsysProcess_WaitForData O fuel cp pipes u ctr).cp u2 ctr2).1 = 1 ∧
    (kwsysProcess_WaitForExit O fuel2
      (kwsysProcess_WaitForData O fuel cp pipes u ctr).cp u2 ctr2).2.1.State =
      ProcState.Error := by
  rcases hPre : wfdPre O ctr cp u with ⟨ust, cpA, ctrB, tt, user⟩
  have hA : cpA = { cp with TimeoutTime := lazyTT cp } := by
    have h := wfdPre_snd O ctr cp u
    rwa [hPre] at h
  have hRdef : kwsysProcess_WaitForData O fuel cp pipes u ctr =
      wfdPost O u ust user (wfdLoop O pipes tt fuel cpA ctrB []) := by
    simp only [kwsysProcess_WaitForData, hPre]
  rw [hRdef] at hex ⊢
  set lr := wfdLoop O pipes tt fuel cpA ctrB [] with hlr
  have hLex : lr.exit = WFDExit.selErr := by
    rw [(wfdPost_exit O u ust user lr).1] at hex
    exact hex
  obtain ⟨lSt, lKi, lSe, lPl, lFp, lCm, lCc, lTe, lSg, lEx⟩ :=
    wfdLoop_selErr O pipes tt fuel cpA ctrB [] (by rw [← hlr]; exact hLex)
  rw [← hlr] at lSt lKi lSe lPl lFp lCm lCc lTe lSg lEx
  have hLst : lr.cp.State = ProcState.Executing := by
    rw [lSt, hA]
    exact hs
  obtain ⟨pRet, pCp, pSg⟩ := wfdPost_selErr_fields O u ust user lr hLex
  have hs2 : (wfdPost O u ust user lr).cp.State = ProcState.Executing := by
    rw [pCp]
    exact hLst
  have hp2 : (wfdPost O u ust user lr).cp.PipesLeft = 0 := by
    rw [pCp]
    exact lPl
  have hn2 : 0 < (wfdPost O u ust user lr).cp.Commands.length := by
    rw [pCp, lCm, hA]
    exact hn
  have hlen2 : (wfdPost O u ust user lr).cp.CommandExitCodes.length =
      (wfdPost O u ust user lr).cp.Commands.length := by
    rw [pCp, lCc, lCm, hA]
    exact hlen
  have hwp2 : ∀ j, j < (wfdPost O u ust user lr).cp.Commands.length →
      O.wp j = Except.ok (sts j) := by
    intro j hj
    apply hwp
    rw [pCp, lCm, hA] at hj
    exact hj
  have hw := wfe_run O fuel2 _ u2 ctr2 sts hf2 hs2 hp2 hn2 hlen2 hwp2
  refine ⟨pRet, ?_, ?_, hp2, ?_, ?_, hw.1, ?_⟩
  · rw [pCp]
    exact lKi
  · rw [pCp]
    exact lSe
  · rw [pSg, lSg (by rw [hA]; exact hs), hA]
    simp
  · obtain ⟨j, msg, hj1, hj2⟩ := lEx
    exact ⟨j, msg, hj1, by rw [pCp]; exact hj2⟩
  · rw [hw.2.1]
    have hse2 : (wfdPost O u ust user lr).cp.SelectError = true := by
      rw [pCp]
      exact lSe
    simp [hse2]

/-- Witness for C4: select reports "Bad file descriptor" on the first
    call, with a distant process deadline so that select is reached. -/
theorem C4_select_error_witness :
    (kwsysProcess_WaitForData wOracleErr 5 wProcFar 0 none wCtr).ret = 0 ∧
    (kwsysProcess_WaitForData wOracleErr 5 wProcFar 0 none wCtr).cp.Killed = false ∧
    (kwsysProcess_WaitForData wOracleErr 5 wProcFar 0 none wCtr).cp.SelectError = true ∧
    (kwsysProcess_WaitForData wOracleErr 5 wProcFar 0 none wCtr).cp.PipesLeft = 0 ∧
    (kwsysProcess_WaitForData wOracleErr 5 wProcFar 0 none wCtr).sigs =
      wProcFar.ForkPIDs.filter (fun p => p ≠ 0) ∧
    (∃ j msg, wOracleErr.sel j = SelectResult.err msg ∧
      (kwsysProcess_WaitForData wOracleErr 5 wProcFar 0 none wCtr).cp.ErrorMessage =
        msg.take KWSYSPE_PIPE_BUFFER_SIZE) ∧
    (kwsysProcess_WaitForExit wOracleErr 1
      (kwsysProcess_WaitForData wOracleErr 5 wProcFar 0 none wCtr).cp none wCtr).1 = 1 ∧
    (kwsysProcess_WaitForExit wOracleErr 1
      (kwsysProcess_WaitForData wOracleErr 5 wProcFar 0 none wCtr).cp none wCtr).2.1.State =
      ProcState.Error :=
  C4_select_error wOracleErr 5 1 wProcFar 0 none none wCtr wCtr (fun j => 0)
    rfl (by decide) (by decide) (by decide) (by decide) (fun j hj => rfl)

/-! ### C1: WaitForExit decodes the last wait status -/

/-- C1: for a pipeline whose run was neither killed nor timed out (and
    saw no select error), if the last command wait status satisfies
    WIFEXITED then WaitForExit sets State = Exited,
    ExitValue = WEXITSTATUS and ExitException = None; if instead
    WIFSIGNALED holds it sets State = Exception and maps the
    terminating signal: Fault for SIGSEGV or SIGBUS, Numerical for
    SIGFPE, Illegal for SIGILL, Interrupt for SIGINT, Other otherwise. -/
theorem C1_waitForExit_decode (O : Oracle) (fuel : Nat) (cp : kwsysProcess)
    (u : Option Rat) (ctr : Ctr) (sts : Nat → Int)
    (hf : 0 < fuel) (hs : cp.State = ProcState.Executing)
    (hp : cp.PipesLeft = 0)
    (hse : cp.SelectError = false) (hki : cp.Killed = false)
    (hte : cp.TimeoutExpired = false)
    (hn : 0 < cp.Commands.length)
    (hlen : cp.CommandExitCodes.length = cp.Commands.length)
    (hwp : ∀ j, j < cp.Commands.length → O.wp j = Except.ok (sts j)) :
    (WIFEXITED (sts (cp.Commands.length - 1)) = true →
      (kwsysProcess_WaitForExit O fuel cp u ctr).2.1.State = ProcState.Exited ∧
      (kwsysProcess_WaitForExit O fuel cp u ctr).2.1.ExitValue =
        WEXITSTATUS (sts (cp.Commands.length - 1)) ∧
      (kwsysProcess_WaitForExit O fuel cp u ctr).2.1.ExitException =
        ExcCode.None) ∧
    (WIFSIGNALED (sts (cp.Commands.length - 1)) = true →
      (kwsysProcess_WaitForExit O fuel cp u ctr).2.1.State =
        ProcState.Exception ∧
      (kwsysProcess_WaitForExit O fuel cp u ctr).2.1.ExitException =
        kwsysMapSignal (WTERMSIG (sts (cp.Commands.length - 1)))) ∧
    (∀ sg : Int, kwsysMapSignal sg =
      if sg = SIGSEGV ∨ sg = SIGBUS then ExcCode.Fault
      else if sg = SIGFPE then ExcCode.Numerical
      else if sg = SIGILL then ExcCode.Illegal
      else if sg = SIGINT then ExcCode.Interrupt
      else ExcCode.Other) := by
  have hw := wfe_run O fuel cp u ctr sts hf hs hp hn hlen hwp
  obtain ⟨hEx, hSig⟩ := hw.2.2 hse hki hte
  refine ⟨?_, ?_, ?_⟩
  · intro hWIE
    refine ⟨?_, hEx hWIE⟩
    rw [hw.2.1]
    simp [hse, hki, hte, hWIE]
  · intro hWIS
    refine ⟨?_, hSig hWIS⟩
    rw [hw.2.1]
    simp [hse, hki, hte, hWIS, signaled_not_exited _ hWIS]
  · intro sg
    simp only [kwsysMapSignal]
    by_cases h1 : sg = SIGSEGV <;> by_cases h2 : sg = SIGBUS <;>
      simp [h1, h2]

/-- Witness for C1: the second (last) child exits normally with wait
    status 7 * 256, so the decoded state is Exited with ExitValue 7;
    the signal-map conjunct is checked at SIGSEGV via the universal. -/
theorem C1_waitForExit_decode_witness :
    ((kwsysProcess_WaitForExit wOracleExit7 1 wProcDone none wCtr).2.1.State =
      ProcState.Exited ∧
     (kwsysProcess_WaitForExit wOracleExit7 1 wProcDone none wCtr).2.1.ExitValue =
      WEXITSTATUS ((fun i => if i = 1 then 7 * 256 else 0 : Nat → Int)
        (wProcDone.Commands.length - 1)) ∧
     (kwsysProcess_WaitForExit wOracleExit7 1 wProcDone none wCtr).2.1.ExitException =
      ExcCode.None) ∧
    kwsysMapSignal SIGSEGV = ExcCode.Fault :=
  have h := C1_waitForExit_decode wOracleExit7 1 wProcDone none wCtr
    (fun i => if i = 1 then 7 * 256 else 0)
    (by decide) rfl rfl rfl rfl rfl (by decide) (by decide)
    (fun j hj => by
      simp only [wOracleExit7, wOracle])
  ⟨h.1 (by decide), by rw [h.2.2 SIGSEGV]; simp⟩

/-! ### C6: Kill semantics -/

/-- C6: Kill on a group not in the Executing state is a no-op; Kill on
    an executing group sets the Killed latch and signals every non-zero
    child PID with SIGKILL, without changing State; Kill is idempotent
    on the group state; and the transition to State = Killed happens
    only in the subsequent WaitForExit. -/
theorem C6_kill_semantics (cp : kwsysProcess) (O : Oracle) (fuel : Nat)
    (u : Option Rat) (ctr : Ctr) (sts : Nat → Int) :
    (cp.State ≠ ProcState.Executing → kwsysProcess_Kill cp = (cp, [])) ∧
    (cp.State = ProcState.Executing →
      (kwsysProcess_Kill cp).1 = { cp with Killed := true } ∧
      (kwsysProcess_Kill cp).1.State = cp.State ∧
      (kwsysProcess_Kill cp).2 = cp.ForkPIDs.filter (fun p => p ≠ 0)) ∧
    (kwsysProcess_Kill (kwsysProcess_Kill cp).1).1 = (kwsysProcess_Kill cp).1 ∧
    (0 < fuel → cp.State = ProcState.Executing → cp.SelectError = false →
      cp.PipesLeft = 0 → 0 < cp.Commands.length →
      cp.CommandExitCodes.length = cp.Commands.length →
      (∀ j, j < cp.Commands.length → O.wp j = Except.ok (sts j)) →
      (kwsysProcess_WaitForExit O fuel (kwsysProcess_Kill cp).1 u ctr).2.1.State =
        ProcState.Killed) := by
  refine ⟨?_, ?_, ?_, ?_⟩
  · intro h
    simp only [kwsysProcess_Kill, if_neg h]
  · intro h
    refine ⟨?_, ?_, ?_⟩
    · rw [kill_fst, if_pos h]
    · rw [kill_fst, if_pos h]
    · rw [kill_snd, if_pos h]
  · by_cases h : cp.State = ProcState.Executing
    · rw [kill_fst cp, if_pos h, kill_fst, if_pos (show
        ({ cp with Killed := true } : kwsysProcess).State = ProcState.Executing
        from h)]
    · rw [kill_fst cp, if_neg h, kill_fst, if_neg h]
  · intro hf hexe hse hpl hn hlen hwp
    have hK : (kwsysProcess_Kill cp).1 = { cp with Killed := true } := by
      rw [kill_fst, if_pos hexe]
    have hRst : (kwsysProcess_Kill cp).1.State = ProcState.Executing := by
      rw [hK]
      exact hexe
    have hRpl : (kwsysProcess_Kill cp).1.PipesLeft = 0 := by
      rw [hK]
      exact hpl
    have hRn : 0 < (kwsysProcess_Kill cp).1.Commands.length := by
      rw [hK]
      exact hn
    have hRlen : (kwsysProcess_Kill cp).1.CommandExitCodes.length =
        (kwsysProcess_Kill cp).1.Commands.length := by
      rw [hK]
      exact hlen
    have hRwp : ∀ j, j < (kwsysProcess_Kill cp).1.Commands.length →
        O.wp j = Except.ok (sts j) := by
      intro j hj
      apply hwp
      rw [hK] at hj
      exact hj
    have hw := wfe_run O fuel _ u ctr sts hf hRst hRpl hRn hRlen hRwp
    rw [hw.2.1]
    have hRse : (kwsysProcess_Kill cp).1.SelectError = false := by
      rw [hK]
      exact hse
    have hRki : (kwsysProcess_Kill cp).1.Killed = true := by
      rw [hK]
    simp [hRse, hRki]

/-- Witness for C6: Kill on a fresh (Starting) group is a no-op; Kill
    on the executing wProcDone latches Killed, signals both children,
    is idempotent, and the next WaitForExit reports Killed. -/
theorem C6_kill_semantics_witness :
    kwsysProcess_Kill kwsysProcess_New = (kwsysProcess_New, []) ∧
    (kwsysProcess_Kill wProcDone).1 = { wProcDone with Killed := true } ∧
    (kwsysProcess_Kill wProcDone).2 =
      wProcDone.ForkPIDs.filter (fun p => p ≠ 0) ∧
    (kwsysProcess_Kill (kwsysProcess_Kill wProcDone).1).1 =
      (kwsysProcess_Kill wProcDone).1 ∧
    (kwsysProcess_WaitForExit wOracle 1 (kwsysProcess_Kill wProcDone).1
      none wCtr).2.1.State = ProcState.Killed :=
  have h0 := C6_kill_semantics kwsysProcess_New wOracle 1 none wCtr (fun j => 0)
  have h := C6_kill_semantics wProcDone wOracle 1 none wCtr (fun j => 0)
  ⟨h0.1 (by decide), (h.2.1 rfl).1, (h.2.1 rfl).2.2, h.2.2.1,
   h.2.2.2 (by decide) rfl rfl rfl (by decide) (by decide) (fun j hj => rfl)⟩

/-! ### C3: user-timeout expiry -/

/-- C3: when WaitForData is called with a user timeout that the code
    determines to be the earlier deadline (huser is exactly the source
    comparison against the process deadline), no stale ready marks are
    pending, and the first deadline check or select call reports expiry
    before any pipe becomes ready, the call returns the Pipe_Timeout
    sentinel, leaves the children running (no kill, no latch, PipesLeft
    and every other field unchanged apart from the recomputed
    TimeoutTime and the re-armed PipeSet), and writes back the user
    timeout decremented by the elapsed time clamped at zero, so that it
    is exactly 0 on return. -/
theorem C3_user_timeout (O : Oracle) (fuel : Nat) (cp : kwsysProcess)
    (pipes : Nat) (uu : Rat) (ctr : Ctr)
    (hfuel : 0 < fuel)
    (hps : cp.PipeSet = PipeArray.closedAll)
    (hpl : 0 < cp.PipesLeft)
    (hpr : cp.PipeReadEnds ≠ PipeArray.closedAll)
    (huser : kwsysProcessTimeLess
      (kwsysProcessTimeAdd (O.time (ctr.t + 1)) (kwsysProcessTimeFromDouble uu))
      (lazyTT cp) = true)
    (hts : 0 ≤ (kwsysProcessTimeAdd (O.time (ctr.t + 1))
      (kwsysProcessTimeFromDouble uu)).tv_sec)
    (hloop : (kwsysProcessTimeSubtract
        (kwsysProcessTimeAdd (O.time (ctr.t + 1)) (kwsysProcessTimeFromDouble uu))
        (O.time (ctr.t + 2))).tv_sec < 0 ∨
      O.sel ctr.s = SelectResult.timedOut)
    (helapsed : uu ≤ kwsysProcessTimeToDouble
      (kwsysProcessTimeSubtract (O.time (ctr.t + 3)) (O.time ctr.t))) :
    (kwsysProcess_WaitForData O fuel cp pipes (some uu) ctr).ret =
      kwsysProcess_Pipe_Timeout ∧
    (kwsysProcess_WaitForData O fuel cp pipes (some uu) ctr).cp =
      { cp with TimeoutTime := lazyTT cp, PipeSet := cp.PipeReadEnds } ∧
    (kwsysProcess_WaitForData O fuel cp pipes (some uu) ctr).sigs = [] ∧
    (kwsysProcess_WaitForData O fuel cp pipes (some uu) ctr).userTimeout =
      some 0 := by
  obtain ⟨k, rfl⟩ : ∃ k, fuel = k + 1 := ⟨fuel - 1, by omega⟩
  have hPre : wfdPre O ctr cp (some uu) =
      (O.time ctr.t, { cp with TimeoutTime := lazyTT cp },
        { ctr with t := ctr.t + 2 },
        kwsysProcessTimeAdd (O.time (ctr.t + 1)) (kwsysProcessTimeFromDouble uu),
        true) := by
    simp only [wfdPre, kwsysProcessGetTimeoutTime]
    rw [if_pos huser]
  have hRead : wfdReadAll O pipes { cp with TimeoutTime := lazyTT cp }
      { ctr with t := ctr.t + 2 } =
      ({ cp with TimeoutTime := lazyTT cp }, { ctr with t := ctr.t + 2 }, 0) := by
    simp only [wfdReadAll, wfdReadPipe]
    rw [hps]
    simp [PipeArray.closedAll, PipeArray.get]
  have hStep : ∃ ctrL : Ctr, ctrL.t = ctr.t + 3 ∧
      wfdStep O pipes
        (kwsysProcessTimeAdd (O.time (ctr.t + 1)) (kwsysProcessTimeFromDouble uu))
        { cp with TimeoutTime := lazyTT cp } { ctr with t := ctr.t + 2 } [] =
      Sum.inl
        { cp := { cp with TimeoutTime := lazyTT cp, PipeSet := cp.PipeReadEnds },
          ctr := ctrL, sigs := [], exit := WFDExit.expiredLoop } := by
    have hTL : kwsysProcessGetTimeoutLeft O { ctr with t := ctr.t + 2 }
        (kwsysProcessTimeAdd (O.time (ctr.t + 1)) (kwsysProcessTimeFromDouble uu)) =
        ({ ctr with t := ctr.t + 3 },
          decide ((kwsysProcessTimeSubtract
            (kwsysProcessTimeAdd (O.time (ctr.t + 1)) (kwsysProcessTimeFromDouble uu))
            (O.time (ctr.t + 2))).tv_sec < 0)) := by
      simp only [kwsysProcessGetTimeoutLeft]
      rw [if_neg hts.not_lt]
    by_cases hExp : (kwsysProcessTimeSubtract
        (kwsysProcessTimeAdd (O.time (ctr.t + 1)) (kwsysProcessTimeFromDouble uu))
        (O.time (ctr.t + 2))).tv_sec < 0
    · refine ⟨{ ctr with t := ctr.t + 3 }, rfl, ?_⟩
      simp [wfdStep, hRead, hTL, hpl.not_le, hpr, hExp]
    · have hSel : O.sel ctr.s = SelectResult.timedOut := hloop.resolve_left hExp
      refine ⟨{ ctr with t := ctr.t + 3, s := ctr.s + 1 }, rfl, ?_⟩
      simp [wfdStep, hRead, hTL, hpl.not_le, hpr, hExp, hSel]
  obtain ⟨ctrL, hctrL, hStepEq⟩ := hStep
  have hLoop : wfdLoop O pipes
      (kwsysProcessTimeAdd (O.time (ctr.t + 1)) (kwsysProcessTimeFromDouble uu))
      (k + 1) { cp with TimeoutTime := lazyTT cp } { ctr with t := ctr.t + 2 } [] =
      { cp := { cp with TimeoutTime := lazyTT cp, PipeSet := cp.PipeReadEnds },
        ctr := ctrL, sigs := [], exit := WFDExit.expiredLoop } := by
    simp only [wfdLoop, hStepEq]
  have hW : kwsysProcess_WaitForData O (k + 1) cp pipes (some uu) ctr =
      wfdPost O (some uu) (O.time ctr.t) true
        { cp := { cp with TimeoutTime := lazyTT cp, PipeSet := cp.PipeReadEnds },
          ctr := ctrL, sigs := [], exit := WFDExit.expiredLoop } := by
    simp only [kwsysProcess_WaitForData, hPre, hLoop]
  rw [hW]
  simp only [wfdPost, wfdDispatch]
  rw [hctrL]
  refine ⟨rfl, rfl, rfl, ?_⟩
  have hle : uu - kwsysProcessTimeToDouble
      (kwsysProcessTimeSubtract (O.time (ctr.t + 3)) (O.time ctr.t)) ≤ 0 :=
    sub_nonpos.mpr helapsed
  by_cases hlt : uu - kwsysProcessTimeToDouble
      (kwsysProcessTimeSubtract (O.time (ctr.t + 3)) (O.time ctr.t)) < 0
  · rw [if_pos hlt]
    rfl
  · rw [if_neg hlt]
    show some (uu - kwsysProcessTimeToDouble
      (kwsysProcessTimeSubtract (O.time (ctr.t + 3)) (O.time ctr.t))) = some 0
    exact congrArg some (le_antisymm hle (not_lt.mp hlt))

/-- Witness for C3: a 2-second user timeout against a distant process
    deadline; the clock advances one second per reading, so 3 seconds
    have elapsed by the write-back and the returned user timeout is
    exactly 0. -/
theorem C3_user_timeout_witness :
    (kwsysProcess_WaitForData wOracle 5 wProcFar 0 (some 2) wCtr).ret =
      kwsysProcess_Pipe_Timeout ∧
    (kwsysProcess_WaitForData wOracle 5 wProcFar 0 (some 2) wCtr).cp =
      { wProcFar with TimeoutTime := lazyTT wProcFar,
                      PipeSet := wProcFar.PipeReadEnds } ∧
    (kwsysProcess_WaitForData wOracle 5 wProcFar 0 (some 2) wCtr).sigs = [] ∧
    (kwsysProcess_WaitForData wOracle 5 wProcFar 0 (some 2) wCtr).userTimeout =
      some 0 :=
  C3_user_timeout wOracle 5 wProcFar 0 2 wCtr (by decide) rfl (by decide)
    (by decide)
    (by norm_num [wOracle, wCtr, wProcFar, wProc, kwsysProcess_New, lazyTT,
      kwsysProcessTimeAdd, kwsysProcessTimeFromDouble, ratTrunc,
      kwsysProcessTimeLess])
    (by norm_num [wOracle, wCtr, kwsysProcessTimeAdd,
      kwsysProcessTimeFromDouble, ratTrunc])
    (Or.inr rfl)
    (by norm_num [wOracle, wCtr, kwsysProcessTimeSubtract,
      kwsysProcessTimeToDouble])

end KWSysProc
